import Mathlib

/-!
# Sugar Track backend: a shallow embedding of `src/backend/server.js`

The request handlers and the reminder job of `server.js` are embedded as pure functions
over an explicit row store.  Conventions used throughout:

* A table is the list of rows returned by `sheets.spreadsheets.values.get`
  (`response.data.values || []`); every cell arrives as text, and a row may be shorter
  than the column range, in which case `row[i]` is `undefined` (`none`).
* A textual request field is an `Option String`: `none` stands for an absent
  (`undefined`) or `null` field, `some s` for a JSON string.  The numeric field of a
  sugar reading is a `JsValue`.
* A call to the row store either succeeds or throws; the outcome of each call is an
  explicit input (`none` = the call succeeds, `some msg` = it throws an `Error` whose
  message is `msg`).  A call that throws leaves the table unchanged; an append that
  succeeds adds the row at the end of the table.
* A `try` block is a function into `Except JsError`, and its `catch` is the match on the
  result.
* Built-in conversions of the JavaScript runtime whose full behaviour is not part of
  this repository (`parseInt`, `Number` on strings, `Date` parsing, the text the sheet
  shows for a number) are fields of `Runtime`; general theorems hold for every runtime.
  `nodeRuntime` is a reference runtime for plain decimal inputs, with the offset of the
  process time zone as a parameter; it is what concrete evaluations use.
* The clock is an explicit input: `now` is the time value of `new Date()` in milliseconds
  since the epoch, and the zone of the process is a fixed offset `utcOffsetMinutes`
  (daylight-saving changes are not modelled).  Calendar fields follow the definitions of
  ECMAScript (`DayFromYear`, `YearFromTime`, `MonthFromTime`, `DateFromTime`).
* GET /medication/records computes with the raw query strings; its model covers integral
  page and limit values and is `none` elsewhere.
* The series of the weekly chart are modelled as `res.json` writes them: a `NaN` pushed
  onto an array appears as `null` in the body.
* Logging and the one-second pause between reminder pushes are not modelled.
-/

namespace SugarTracker

/-! ## JavaScript values -/

/-- A JavaScript number: `NaN`, an infinity, or the finite double
`mantissa * 2 ^ exponent` (the sign of a zero is not recorded). -/
inductive JsNumber where
  | nan
  | infinity (negative : Bool)
  | finite (mantissa : Int) (exponent : Int)
  deriving DecidableEq, Repr

/-- The value of `Number.isFinite(x)` for a number `x`. -/
def JsNumber.isFinite : JsNumber → Bool
  | .finite _ _ => true
  | _ => false

/-- The value of `x < 0` for a number `x`. -/
def JsNumber.ltZero : JsNumber → Bool
  | .nan => false
  | .infinity negative => negative
  | .finite mantissa _ => decide (mantissa < 0)

/-- A JSON scalar as found in a request body, `undefined` standing for an absent key. -/
inductive JsValue where
  | undefined
  | null
  | bool (b : Bool)
  | number (n : JsNumber)
  | string (s : String)
  deriving DecidableEq, Repr

/-- An exception thrown inside a handler. -/
inductive JsError where
  | referenceError (identifier : String)
  | typeError (message : String)
  | storeError (message : String)
  deriving DecidableEq, Repr

/-- The `message` property of a thrown error. -/
def JsError.message : JsError → String
  | .referenceError identifier => identifier ++ " is not defined"
  | .typeError message => message
  | .storeError message => message

/-- Built-in conversions of the JavaScript runtime and of the sheet, taken as given.
`none` stands for `NaN`. -/
structure Runtime where
  /-- The global `parseInt` applied to a string. -/
  parseInt : String → Option Int
  /-- The global `Number` applied to a string. -/
  stringToNumber : String → JsNumber
  /-- The time value of `new Date(s)` in milliseconds since the epoch. -/
  parseDate : String → Option Int
  /-- The time value of `new Date(Number(p[2]), Number(p[1]) - 1, Number(p[0]))` for the
  parts `p` of a date string split on the slash. -/
  localDateOfParts : List String → Option Int
  /-- The text the sheet returns for a numeric cell. -/
  renderNumber : JsNumber → String

/-- The operator `a ?? b` on JSON scalars. -/
def JsValue.nullish (a b : JsValue) : JsValue :=
  match a with
  | .undefined => b
  | .null => b
  | v => v

/-- The global `Number(v)`. -/
def toNumber (rt : Runtime) : JsValue → JsNumber
  | .undefined => .nan
  | .null => .finite 0 0
  | .bool true => .finite 1 0
  | .bool false => .finite 0 0
  | .number n => n
  | .string s => rt.stringToNumber s

/-- Truthiness of a textual field: absent, `null` and the empty string are falsy. -/
def truthy : Option String → Bool
  | none => false
  | some s => s != ""

/-- The operator `a || b` on textual fields. -/
def jsOr (a b : Option String) : Option String :=
  if truthy a then a else b

/-- The operator `a ?? b` on textual fields. -/
def jsNullish (a b : Option String) : Option String :=
  match a with
  | none => b
  | some s => some s

/-- The global `String(x)` for a cell or textual field that may be `undefined`. -/
def jsString : Option String → String
  | none => "undefined"
  | some s => s

/-! ## The row store -/

/-- A row of a sheet: its cells, as text. -/
abbrev Row := List String

/-- A sheet: its rows in order, the first one being the header. -/
abbrev Table := List Row

/-- The cell `row[i]`, `undefined` past the end of the row. -/
def cell (row : Row) (i : Nat) : Option String :=
  row.get? i

/-- The four sheets of the spreadsheet. -/
structure Store where
  users : Table
  sugarRecords : Table
  medicationLogs : Table
  doctorAppointments : Table
  deriving DecidableEq, Repr

/-- The call `sheets.spreadsheets.values.get`, followed by `.data.values || []`. -/
def fetchRows (fault : Option String) (table : Table) : Except JsError Table :=
  match fault with
  | some msg => .error (.storeError msg)
  | none => .ok table

/-- The call `sheets.spreadsheets.values.append` of one row. -/
def appendRow (fault : Option String) (table : Table) (row : Row) : Except JsError Table :=
  match fault with
  | some msg => .error (.storeError msg)
  | none => .ok (table ++ [row])

/-- The result of `getThaiDateTime()`: the server-local date and time of day. -/
structure ThaiDateTime where
  date : String
  time : String
  deriving DecidableEq, Repr

/-- The JSON body (and status) a write handler responds with; a flag that the handler
does not set is `false`. -/
structure WriteResponse where
  status : Nat
  success : Bool
  message : Option String
  notRegistered : Bool
  isDuplicate : Bool
  deriving DecidableEq, Repr

/-! ## POST /sugar -/

/-- The fields of `req.body` that POST /sugar reads. -/
structure SugarRequest where
  userId : Option String
  user_id : Option String
  sugar : JsValue
  value : JsValue
  glucose : JsValue
  type : Option String
  mealTiming : Option String
  meal_timing : Option String
  period : Option String
  timeOfDay : Option String
  time_of_day : Option String
  deriving DecidableEq, Repr

/-- Outcomes of the three row-store calls of POST /sugar. -/
structure SugarFaults where
  usersFetch : Option String
  recordsFetch : Option String
  append : Option String
  deriving DecidableEq, Repr

/-- The value `userId` of the handler (line 236). -/
def SugarRequest.resolvedUserId (body : SugarRequest) : Option String :=
  jsOr body.userId body.user_id

/-- The value `sugar` of the handler (lines 237-239). -/
def SugarRequest.resolvedSugar (rt : Runtime) (body : SugarRequest) : JsNumber :=
  let sugarRaw := (body.sugar.nullish body.value).nullish body.glucose
  match sugarRaw with
  | .number n => n
  | v => toNumber rt v

/-- The value `typeRaw` of the handler (lines 241-242). -/
def SugarRequest.typeRaw (body : SugarRequest) : Option String :=
  jsNullish (jsNullish body.type body.mealTiming) body.meal_timing

/-- The value `periodRaw` of the handler (lines 243-244). -/
def SugarRequest.periodRaw (body : SugarRequest) : Option String :=
  jsNullish (jsNullish body.period body.timeOfDay) body.time_of_day

/-- The validation test of lines 247-253: `true` when the request is rejected. -/
def SugarRequest.invalid (rt : Runtime) (body : SugarRequest) : Bool :=
  !truthy body.resolvedUserId ||
  !(body.resolvedSugar rt).isFinite ||
  (body.resolvedSugar rt).ltZero ||
  !truthy body.typeRaw ||
  !truthy body.periodRaw

/-- The translation of the meal-timing code (lines 261-266). -/
def translateType (typeRaw : Option String) : Option String :=
  if typeRaw = some "before" then some "ก่อนอาหาร"
  else if typeRaw = some "after" then some "หลังอาหาร"
  else typeRaw

/-- The translation of the time-of-day code (lines 267-272). -/
def translatePeriod (periodRaw : Option String) : Option String :=
  if periodRaw = some "morning" then some "เช้า"
  else if periodRaw = some "evening" then some "เย็น"
  else periodRaw

/-- The test `isRegistered` of lines 291-293, over every row of the Users sheet. -/
def isRegistered (users : Table) (userId : Option String) : Bool :=
  users.any (fun row => jsString (cell row 0) == jsString userId)

/-- The callback of `dataRows.some` at lines 323-331. -/
def sugarRowMatches (userId type period : Option String) (date : String) (row : Row) : Bool :=
  jsString (cell row 0) == jsString userId &&
  jsString (cell row 2) == jsString type &&
  jsString (cell row 3) == jsString period &&
  jsString (cell row 4) == date

/-- The test `isDuplicate` of lines 320-331, over `records.slice(1)`. -/
def sugarIsDuplicate (records : Table) (userId type period : Option String)
    (date : String) : Bool :=
  (records.drop 1).any (sugarRowMatches userId type period date)

/-- Evaluation of the identifier `dateStr` read by the template of line 336.  Its only
declaration (lines 303-310) is commented out and no other binding is in scope, so the
read throws a `ReferenceError`. -/
def dateStr : Except JsError String :=
  .error (.referenceError "dateStr")

/-- The message template of line 336. -/
def duplicateMessage (type period : Option String) (dateText : String) : String :=
  "คุณได้บันทึกข้อมูลค่าน้ำตาล \"" ++ jsString type ++ " มื้อ" ++ jsString period ++
    "\" ในวันที่ " ++ dateText ++ " ไปแล้ว กรุณาเลือกช่วงเวลาอื่น"

/-- The row appended at line 347. -/
def sugarRow (rt : Runtime) (userId : Option String) (sugar : JsNumber)
    (type period : Option String) (date : String) : Row :=
  [jsString userId, rt.renderNumber sugar, jsString type, jsString period, date]

/-- The `try` block of POST /sugar (lines 234-354): the new store and the response, or
the exception that reaches the outer `catch`. -/
def postSugarTry (rt : Runtime) (faults : SugarFaults) (now : ThaiDateTime)
    (store : Store) (body : SugarRequest) : Except JsError (Store × WriteResponse) :=
  let userId := body.resolvedUserId
  let sugar := body.resolvedSugar rt
  if body.invalid rt then
    .ok (store, ⟨400, false, some "ข้อมูลไม่ครบหรือไม่ถูกต้อง", false, false⟩)
  else
    let type := translateType body.typeRaw
    let period := translatePeriod body.periodRaw
    match fetchRows faults.usersFetch store.users with
    | .error _ =>
      .ok (store, ⟨503, false,
        some "ไม่สามารถเชื่อมต่อกับระบบจัดเก็บข้อมูลได้ กรุณาลองใหม่อีกครั้ง", false, false⟩)
    | .ok users =>
      if !isRegistered users userId then
        .ok (store, ⟨404, false, some "กรุณาลงทะเบียนก่อนที่เมนูลงทะเบียน", true, false⟩)
      else
        let date := now.date
        match fetchRows faults.recordsFetch store.sugarRecords with
        | .error e => .error e
        | .ok records =>
          if sugarIsDuplicate records userId type period date then
            match dateStr with
            | .error e => .error e
            | .ok dateText =>
              .ok (store, ⟨409, false, some (duplicateMessage type period dateText),
                false, true⟩)
          else
            match appendRow faults.append store.sugarRecords
                (sugarRow rt userId sugar type period date) with
            | .error e => .error e
            | .ok table =>
              .ok ({ store with sugarRecords := table },
                ⟨200, true, some "บันทึกค่าน้ำตaลสำเร็จ", false, false⟩)

/-- The handler of POST /sugar, outer `catch` (lines 355-361) included. -/
def postSugar (rt : Runtime) (faults : SugarFaults) (now : ThaiDateTime)
    (store : Store) (body : SugarRequest) : Store × WriteResponse :=
  match postSugarTry rt faults now store body with
  | .ok result => result
  | .error _ => (store, ⟨500, false, some "เกิดข้อผิดพลาดภายในเซิร์ฟเวอร์", false, false⟩)

/-! ## POST /medication-log -/

/-- The fields of `req.body` that POST /medication-log reads. -/
structure MedicationLogRequest where
  userId : Option String
  timeOfDay : Option String
  mealRelation : Option String
  status : Option String
  deriving DecidableEq, Repr

/-- The row appended at line 592. -/
def medicationLogRow (now : ThaiDateTime) (body : MedicationLogRequest) : Row :=
  [jsString body.userId, now.date, jsString body.timeOfDay, jsString body.mealRelation,
    jsString body.status, now.time]

/-- The handler of POST /medication-log (lines 573-604); `appendFault` is the outcome of
its one row-store call. -/
def postMedicationLog (appendFault : Option String) (now : ThaiDateTime)
    (store : Store) (body : MedicationLogRequest) : Store × WriteResponse :=
  if !truthy body.userId || !truthy body.timeOfDay || !truthy body.mealRelation ||
      !truthy body.status then
    (store, ⟨200, false, some "ข้อมูลไม่ครบ กรุณากรอกข้อมูลให้ครบถ้วน", false, false⟩)
  else
    match appendRow appendFault store.medicationLogs (medicationLogRow now body) with
    | .ok table => ({ store with medicationLogs := table }, ⟨200, true, none, false, false⟩)
    | .error e =>
      (store, ⟨200, false, some ("ไม่สามารถบันทึกข้อมูลได้: " ++ e.message), false, false⟩)

/-! ## POST /appointment -/

/-- The fields of `req.body` that POST /appointment reads. -/
structure AppointmentRequest where
  userId : Option String
  date : Option String
  time : Option String
  note : Option String
  deriving DecidableEq, Repr

/-- Outcomes of the two row-store calls of POST /appointment. -/
structure AppointmentFaults where
  fetch : Option String
  append : Option String
  deriving DecidableEq, Repr

/-- The callback of `rows.some` at lines 697-699 (strict equality on each cell). -/
def appointmentRowMatches (body : AppointmentRequest) (row : Row) : Bool :=
  cell row 0 == body.userId && cell row 1 == body.date && cell row 2 == body.time

/-- The test `isDuplicate` of lines 696-699, over every row of the sheet. -/
def appointmentIsDuplicate (rows : Table) (body : AppointmentRequest) : Bool :=
  rows.any (appointmentRowMatches body)

/-- The row appended at line 713. -/
def appointmentRow (body : AppointmentRequest) : Row :=
  [jsString body.userId, jsString body.date, jsString body.time,
    jsString (jsOr body.note (some ""))]

/-- The handler of POST /appointment (lines 682-721), as a function of the
DoctorAppointments sheet. -/
def postAppointment (faults : AppointmentFaults) (table : Table)
    (body : AppointmentRequest) : Table × WriteResponse :=
  if !truthy body.userId || !truthy body.date || !truthy body.time then
    (table, ⟨200, false, some "กรุณากรอกวันและเวลา", false, false⟩)
  else
    match fetchRows faults.fetch table with
    | .error e => (table, ⟨200, false, some e.message, false, false⟩)
    | .ok rows =>
      if appointmentIsDuplicate rows body then
        (table, ⟨200, false, some "คุณได้บันทึกนัดนี้แล้ว", false, false⟩)
      else
        match appendRow faults.append table (appointmentRow body) with
        | .error e => (table, ⟨200, false, some e.message, false, false⟩)
        | .ok table' => (table', ⟨200, true, some "บันทึกการนัดหมายเรียบร้อย", false, false⟩)

/-- A run of appointment writes, each with the outcomes of its row-store calls. -/
def runAppointments (table : Table) :
    List (AppointmentFaults × AppointmentRequest) → Table
  | [] => table
  | (faults, body) :: rest => runAppointments (postAppointment faults table body).1 rest

/-- The natural key of an appointment row: its userId, date and time cells. -/
def appointmentKey (row : Row) : Option String × Option String × Option String :=
  (cell row 0, cell row 1, cell row 2)

/-! ## String helpers -/

/-- The parts of a character list split at every occurrence of `sep`. -/
def splitChars (sep : Char) : List Char → List (List Char)
  | [] => [[]]
  | c :: cs =>
    if c = sep then [] :: splitChars sep cs
    else
      match splitChars sep cs with
      | [] => [[c]]
      | part :: parts => (c :: part) :: parts

/-- The method `s.split(sep)` for a one-character separator. -/
def jsSplit (s : String) (sep : Char) : List String :=
  (splitChars sep s.data).map String.mk

/-- The method `parts.join(sep)` on an array of strings. -/
def jsJoin (sep : String) : List String → String
  | [] => ""
  | [p] => p
  | p :: q :: rest => p ++ sep ++ jsJoin sep (q :: rest)

/-- The index `k` that `Array.prototype.slice` derives from a relative index. -/
def clampIndex (len : Nat) (i : Int) : Nat :=
  if i < 0 then (len + i).toNat else min i.toNat len

/-- The method `l.slice(start, stop)`. -/
def jsSlice {α : Type} (l : List α) (start stop : Int) : List α :=
  (l.drop (clampIndex l.length start)).take
    (clampIndex l.length stop - clampIndex l.length start)

/-- The method `l.slice(start)`. -/
def jsSliceFrom {α : Type} (l : List α) (start : Int) : List α :=
  l.drop (clampIndex l.length start)

/-- The difference `x - y` of two time values, `NaN` when either is `NaN`. -/
def subtractDates (x y : Option Int) : Option Int :=
  match x, y with
  | some a, some b => some (a - b)
  | _, _ => none

/-- Whether a comparator result is greater than zero (`NaN` counts as `+0`). -/
def comparatorPositive (v : Option Int) : Bool :=
  match v with
  | some d => decide (0 < d)
  | none => false

/-- The method `l.sort(compare)` on defined elements: a stable sort that leaves `a` before
`b` unless `compare a b > 0`. -/
def jsSort {α : Type} (compare : α → α → Option Int) (l : List α) : List α :=
  l.insertionSort (fun a b => comparatorPositive (compare a b) = false)

/-! ## GET /sugar/records -/

/-- The fields of `req.query` that a paginated listing reads. -/
structure ListingQuery where
  userId : Option String
  page : Option String
  limit : Option String
  deriving DecidableEq, Repr

/-- A record of the sugar listing (lines 401-407); a missing cell is `undefined`. -/
structure SugarRecord where
  userId : Option String
  sugar : Option String
  type : Option String
  period : Option String
  date : Option String
  deriving DecidableEq, Repr

/-- The `pagination` object of lines 435-444. -/
structure Pagination where
  currentPage : Int
  totalPages : Int
  totalRecords : Nat
  recordsPerPage : Int
  hasNext : Bool
  hasPrev : Bool
  nextPage : Option Int
  prevPage : Option Int
  deriving DecidableEq, Repr

/-- The response of GET /sugar/records. -/
structure SugarListing where
  status : Nat
  success : Bool
  message : Option String
  records : List SugarRecord
  pagination : Option Pagination
  deriving DecidableEq, Repr

/-- The mapping of lines 401-407. -/
def toSugarRecord (r : Row) : SugarRecord :=
  ⟨cell r 0, cell r 1, cell r 2, cell r 3, cell r 4⟩

/-- The rows `userRecords` of lines 394-396. -/
def sugarUserRows (rows : Table) (userId : Option String) : List Row :=
  (rows.drop 1).filter (fun r => cell r 0 == userId)

/-- The string handed to `new Date` at lines 411-412:
`date.split("/").reverse().join("-")`. -/
def rebuildDate (date : String) : String :=
  jsJoin "-" (jsSplit date '/').reverse

/-- The time value of the `Date` a record is compared by (lines 411-412), for a record
whose date is defined. -/
def sugarDateKey (rt : Runtime) (r : SugarRecord) : Option Int :=
  match r.date with
  | none => none
  | some d => rt.parseDate (rebuildDate d)

/-- The comparator of lines 410-414: `dateB - dateA`. -/
def sugarCompare (rt : Runtime) (a b : SugarRecord) : Option Int :=
  subtractDates (sugarDateKey rt b) (sugarDateKey rt a)

/-- The sorted array `allRecords` of lines 394-414.  With two or more records the
comparator runs on every record, and `a.date.split` throws on an undefined date. -/
def sugarAllRecords (rt : Runtime) (rows : Table) (userId : Option String) :
    Except JsError (List SugarRecord) :=
  let allRecords := (sugarUserRows rows userId).map toSugarRecord
  if 2 ≤ allRecords.length ∧ allRecords.any (fun r => r.date == none) then
    .error (.typeError "Cannot read properties of undefined (reading 'split')")
  else
    .ok (jsSort (sugarCompare rt) allRecords)

/-- The value of `parseInt(param) || fallback` for a query parameter whose default,
when absent, is the number `fallback`. -/
def parseIntOr (rt : Runtime) (param : Option String) (fallback : Int) : Int :=
  match param with
  | none => fallback
  | some s =>
    match rt.parseInt s with
    | none => fallback
    | some n => if n = 0 then fallback else n

/-- The value of `Math.ceil(a / b)` for integers `a` and `b ≠ 0`. -/
def ceilDiv (a b : Int) : Int :=
  -((-a).fdiv b)

/-- The pagination of lines 416-445: the page of records and its metadata. -/
def sugarPaginate (allRecords : List SugarRecord) (pageNum limitNum : Int) :
    List SugarRecord × Pagination :=
  let totalRecords := allRecords.length
  let totalPages := ceilDiv totalRecords limitNum
  let startIndex := (pageNum - 1) * limitNum
  let endIndex := startIndex + limitNum
  (jsSlice allRecords startIndex endIndex,
    { currentPage := pageNum
      totalPages := totalPages
      totalRecords := totalRecords
      recordsPerPage := limitNum
      hasNext := decide (pageNum < totalPages)
      hasPrev := decide (pageNum > 1)
      nextPage := if pageNum < totalPages then some (pageNum + 1) else none
      prevPage := if pageNum > 1 then some (pageNum - 1) else none })

/-- The handler of GET /sugar/records (lines 364-455); `fetchFault` is the outcome of
its row-store call. -/
def getSugarRecords (rt : Runtime) (fetchFault : Option String) (store : Store)
    (query : ListingQuery) : SugarListing :=
  if !truthy query.userId then
    ⟨200, false, some "userId required", [], none⟩
  else
    match fetchRows fetchFault store.sugarRecords with
    | .error e => ⟨500, false, some e.message, [], none⟩
    | .ok rows =>
      match sugarAllRecords rt rows query.userId with
      | .error e => ⟨500, false, some e.message, [], none⟩
      | .ok allRecords =>
        let page := sugarPaginate allRecords (parseIntOr rt query.page 1)
          (parseIntOr rt query.limit 12)
        ⟨200, true, none, page.1, some page.2⟩

/-! ## GET /sugar/:range (weekly chart) -/

/-- A value pushed onto the `beforeMeal` and `afterMeal` arrays: `null`, or the result of
`parseInt` (a number or `NaN`). -/
inductive ChartValue where
  | null
  | nan
  | int (n : Int)
  deriving DecidableEq, Repr

/-- An entry of the `beforeMeal` and `afterMeal` series in the JSON body of the response:
`null` or a number. -/
inductive SeriesEntry where
  | null
  | int (n : Int)
  deriving DecidableEq, Repr

/-- The entry `res.json` writes for a value of the series (lines 554-560):
`JSON.stringify` writes `NaN` as `null`. -/
def ChartValue.toJson : ChartValue → SeriesEntry
  | .null => .null
  | .nan => .null
  | .int n => .int n

/-- The response of GET /sugar/:range, as the JSON body that `res.json` sends;
`totalRecords` is absent from a failure. -/
structure ChartResponse where
  success : Bool
  message : Option String
  labels : List String
  beforeMeal : List SeriesEntry
  afterMeal : List SeriesEntry
  totalRecords : Option Nat
  deriving DecidableEq, Repr

/-- The rows `userRecords` of lines 482-484, filtered from every row of the sheet. -/
def chartUserRows (data : Table) (userId : Option String) : List Row :=
  data.filter (fun row => jsString (cell row 0) == jsString userId)

/-- The elements of a list in order of first occurrence, as `[...new Set(l)]`. -/
def uniqueFirst {α : Type} [DecidableEq α] : List α → List α
  | [] => []
  | x :: xs => x :: (uniqueFirst xs).filter (fun y => y != x)

/-- The comparator of lines 497-503: `dateA - dateB`. -/
def chartCompare (rt : Runtime) (a b : String) : Option Int :=
  subtractDates (rt.localDateOfParts (jsSplit a '/')) (rt.localDateOfParts (jsSplit b '/'))

/-- The method `dates.sort(compare)` of lines 497-503: `undefined` elements go last
without reaching the comparator. -/
def sortDates (rt : Runtime) (dates : List (Option String)) : List (Option String) :=
  (jsSort (chartCompare rt) (dates.filterMap id)).map some ++
    dates.filter (fun d => d == none)

/-- The array `last7Dates` of lines 493-506. -/
def last7Dates (rt : Runtime) (userRecords : List Row) : List (Option String) :=
  jsSliceFrom (sortDates rt (uniqueFirst (userRecords.map (fun r => cell r 4)))) (-7)

/-- The label prefix `shortDate` of line 511. -/
def shortDate (dateStr : String) : String :=
  jsJoin "/" (jsSlice (jsSplit dateStr '/') 0 2)

/-- The label pushed at line 514. -/
def chartLabel (dateStr period : String) : String :=
  shortDate dateStr ++ "-" ++ period

/-- The lookups of lines 517-530: the first record of the user with the given date,
meal label and period. -/
def findReading (userRecords : List Row) (dateStr mealLabel period : String) : Option Row :=
  userRecords.find? (fun r =>
    cell r 4 == some dateStr && cell r 2 == some mealLabel && cell r 3 == some period)

/-- The value pushed at lines 532-537: `record ? parseInt(record[1]) : null`. -/
def chartValue (rt : Runtime) (record : Option Row) : ChartValue :=
  match record with
  | none => .null
  | some r =>
    match cell r 1 with
    | none => .nan
    | some s =>
      match rt.parseInt s with
      | none => .nan
      | some n => .int n

/-- The two periods of line 513, in order. -/
def chartPeriods : List String :=
  ["เช้า", "เย็น"]

/-- The expression `message || fallback` on a message text. -/
def messageOr (message fallback : String) : String :=
  if message != "" then message else fallback

/-- The handler of GET /sugar/:range (lines 457-571); `fetchFault` is the outcome of its
row-store call.  The series are the arrays of lines 532-537 as `res.json` writes them. -/
def getSugarRange (rt : Runtime) (fetchFault : Option String) (store : Store)
    (rangeType : String) (userId : Option String) : ChartResponse :=
  if !truthy userId then
    ⟨false, some "userId required", [], [], [], none⟩
  else
    match fetchRows fetchFault store.sugarRecords with
    | .error e => ⟨false, some (messageOr e.message "เกิดข้อผิดพลาดในการดึงข้อมูล"), [], [], [], none⟩
    | .ok data =>
      let userRecords := chartUserRows data userId
      if rangeType = "weekly" then
        let kept := last7Dates rt userRecords
        if kept.any (fun d => d == none) then
          ⟨false, some "Cannot read properties of undefined (reading 'split')", [], [], [],
            none⟩
        else
          let slots := (kept.filterMap id).flatMap (fun d => chartPeriods.map (fun p => (d, p)))
          ⟨true, none,
            slots.map (fun s => chartLabel s.1 s.2),
            slots.map (fun s =>
              (chartValue rt (findReading userRecords s.1 "ก่อนอาหาร" s.2)).toJson),
            slots.map (fun s =>
              (chartValue rt (findReading userRecords s.1 "หลังอาหาร" s.2)).toJson),
            some userRecords.length⟩
      else
        ⟨true, none, [], [], [], some userRecords.length⟩

/-! ## The reminder job -/

/-- An element of `appointmentsToRemind` (lines 922-927). -/
structure Appointment where
  userId : Option String
  date : Option String
  time : Option String
  note : String
  deriving DecidableEq, Repr

/-- One call `lineClient.pushMessage(recipient, message)`. -/
structure PushCall where
  recipient : Option String
  text : String
  deriving DecidableEq, Repr

/-- The external message sender: whether `pushMessage` returns or throws, given the
pushes attempted earlier in the run and the push itself. -/
abbrev Sender := List PushCall → PushCall → Except JsError Unit

/-- The mapping of lines 922-927 from a row to an appointment. -/
def appointmentOfRow (row : Row) : Appointment :=
  ⟨cell row 0, cell row 1, cell row 2, jsString (jsOr (cell row 3) (some ""))⟩

/-- The function `getAppointmentsToRemind` (lines 901-937), given the string
`tomorrowDateString` it derives from the clock; a failed fetch yields no appointment. -/
def getAppointmentsToRemind (fetchFault : Option String) (tomorrowDateString : String)
    (table : Table) : List Appointment :=
  match fetchRows fetchFault table with
  | .error _ => []
  | .ok rows =>
    ((rows.drop 1).filter (fun row => cell row 1 == some tomorrowDateString)).map
      appointmentOfRow

/-- The message text of lines 883-888. -/
def reminderText (appointment : Appointment) : String :=
  "🏥 แจ้งเตือนการนัดหมาย\n\n" ++
  "📅 วันที่: " ++ jsString appointment.date ++ "\n" ++
  "⏰ เวลา: " ++ jsString appointment.time ++ "\n" ++
  "📝 หมายเหตุ: " ++ (if appointment.note != "" then appointment.note else "ไม่มี") ++ "\n\n" ++
  "💡 กรุณาเตรียมตัวและมาตรงเวลานะครับ/ค่ะ"

/-- The function `sendReminderMessage` (lines 879-898): its result and the log of pushes
attempted so far, extended by this one.  A push that throws is caught and yields
`false`. -/
def sendReminderMessage (sender : Sender) (log : List PushCall) (userId : Option String)
    (appointment : Appointment) : Bool × List PushCall :=
  let call : PushCall := ⟨userId, reminderText appointment⟩
  match sender log call with
  | .ok _ => (true, log ++ [call])
  | .error _ => (false, log ++ [call])

/-- The function `sendDailyReminders` (lines 940-964): the pushes it attempts, in order. -/
def sendDailyReminders (sender : Sender) (fetchFault : Option String)
    (tomorrowDateString : String) (table : Table) : List PushCall :=
  let appointments := getAppointmentsToRemind fetchFault tomorrowDateString table
  if appointments.length = 0 then []
  else
    appointments.foldl
      (fun log appointment => (sendReminderMessage sender log appointment.userId appointment).2)
      []

/-- The handler of POST /test-reminder (lines 987-997): its response and the pushes of
the run.  `sendDailyReminders` catches every failure itself, so the `catch` of the handler
is never reached. -/
def postTestReminder (sender : Sender) (fetchFault : Option String)
    (tomorrowDateString : String) (table : Table) : WriteResponse × List PushCall :=
  (⟨200, true, some "Daily reminders sent successfully", false, false⟩,
    sendDailyReminders sender fetchFault tomorrowDateString table)

/-! ## A reference runtime -/

/-- The number a list of decimal digits denotes; `none` for an empty list or a list with
another character. -/
def natOfDigits (cs : List Char) : Option Nat :=
  if cs ≠ [] ∧ cs.all Char.isDigit then
    some (cs.foldl (fun n c => 10 * n + (c.toNat - 48)) 0)
  else none

/-- Days from 1 January 1970 to 1 January of year `y`. -/
def daysBeforeYear (y : Int) : Int :=
  365 * (y - 1970) + ((y - 1) / 4 - (y - 1) / 100 + (y - 1) / 400) - 477

/-- Whether year `y` is a leap year. -/
def isLeapYear (y : Int) : Bool :=
  (y % 4 == 0 && y % 100 != 0) || y % 400 == 0

/-- Days from 1 January to the first day of month `m` (1 to 12). -/
def daysBeforeMonth (leap : Bool) (m : Nat) : Int :=
  ([0, 31, 59, 90, 120, 151, 181, 212, 243, 273, 304, 334].getD (m - 1) 0 : Int) +
    (if leap && decide (2 < m) then 1 else 0)

/-- The time value of midnight UTC on day `d` of month `m` of year `y`; a day past the
end of the month runs into the next month, as `MakeDay` does. -/
def utcMidnight (y : Int) (m d : Nat) : Int :=
  (daysBeforeYear y + daysBeforeMonth (isLeapYear y) m + ((d : Int) - 1)) * 86400000

/-- The number of days of month `m` (1 to 12) of year `y`. -/
def daysInMonth (y : Int) (m : Nat) : Nat :=
  if m = 2 then (if isLeapYear y then 29 else 28)
  else if m = 4 ∨ m = 6 ∨ m = 9 ∨ m = 11 then 30
  else 31

/-- The calendar day a `day/month/year` string denotes, in days since 1 January 1970:
the day and the month are one or two decimal digits, the year is a four-digit number
from 1000 on, and the day exists in that month.  Other strings denote no day. -/
def calendarDay (date : String) : Option Int :=
  match splitChars '/' date.data with
  | [ds, ms, ys] =>
    match natOfDigits ds, natOfDigits ms, natOfDigits ys with
    | some d, some m, some y =>
      if ds.length ≤ 2 ∧ ms.length ≤ 2 ∧ ys.length = 4 ∧ 1000 ≤ y ∧ 1 ≤ m ∧ m ≤ 12 ∧
          1 ≤ d ∧ d ≤ daysInMonth y m then
        some (daysBeforeYear y + daysBeforeMonth (isLeapYear y) m + ((d : Int) - 1))
      else none
    | _, _, _ => none
  | _ => none

/-- Whether both the day and the month of a `day/month/year` string have two digits. -/
def isPadded (date : String) : Bool :=
  match splitChars '/' date.data with
  | [ds, ms, _] => ds.length == 2 && ms.length == 2
  | _ => false

/-- The calendar day of a record, `0` when its date denotes none. -/
def recordDay (r : SugarRecord) : Int :=
  ((r.date.bind calendarDay).getD 0)

/-- Whether the date of a record has a two-digit day and month. -/
def recordPadded (r : SugarRecord) : Bool :=
  match r.date with
  | some s => isPadded s
  | none => false

/-- The time value Node.js gives the date of a record that denotes a calendar day, in a
process whose local time is `utcOffsetMinutes` ahead of UTC: midnight UTC of the day for
the padded form, local midnight for the other forms. -/
def recordInstant (utcOffsetMinutes : Int) (r : SugarRecord) : Int :=
  recordDay r * 86400000 - (if recordPadded r then 0 else utcOffsetMinutes * 60000)

/-- The year the legacy date parser reads from a year number. -/
def legacyYear (y : Nat) : Int :=
  if y ≤ 49 then y + 2000 else if y ≤ 99 then y + 1900 else y

/-- The time value of `new Date(s)` as Node.js (V8) computes it for a string `s` of three
groups of decimal digits separated by `-`, in a process whose local time is
`utcOffsetMinutes` ahead of UTC.  The form `YYYY-MM-DD` (four, two and two digits) is the
ISO date-only form and denotes midnight UTC; any other form goes through the legacy
parser and denotes local midnight.  Strings of another shape are outside this reference
and are reported as `NaN`. -/
def v8DateParse (utcOffsetMinutes : Int) (s : String) : Option Int :=
  match splitChars '-' s.data with
  | [c0, c1, c2] =>
    match natOfDigits c0, natOfDigits c1, natOfDigits c2 with
    | some n0, some n1, some n2 =>
      if c0.length = 4 ∧ c1.length = 2 ∧ c2.length = 2 ∧ 1 ≤ n1 ∧ n1 ≤ 12 ∧
          1 ≤ n2 ∧ n2 ≤ 31 then
        some (utcMidnight n0 n1 n2)
      else if 1 ≤ n0 ∧ n0 ≤ 31 then
        if n1 ≤ 31 ∧ 1 ≤ n1 ∧ n0 ≤ 12 then
          some (utcMidnight (legacyYear n2) n0 n1 - utcOffsetMinutes * 60000)
        else none
      else if 1 ≤ n1 ∧ n1 ≤ 12 ∧ 1 ≤ n2 ∧ n2 ≤ 31 then
        some (utcMidnight (legacyYear n0) n1 n2 - utcOffsetMinutes * 60000)
      else none
    | _, _, _ => none
  | _ => none

/-- The time value of `new Date(year, month - 1, day)` for the parts `[day, month, year]`
of a date string, each a group of decimal digits with `1 ≤ month ≤ 12`, `1 ≤ day ≤ 31`
and `year ≥ 100`: local midnight of that day.  Other parts are outside this reference and
are reported as `NaN`. -/
def localDateOfDigits (utcOffsetMinutes : Int) (parts : List String) : Option Int :=
  match parts with
  | [ds, ms, ys] =>
    match natOfDigits ds.data, natOfDigits ms.data, natOfDigits ys.data with
    | some d, some m, some y =>
      if 1 ≤ m ∧ m ≤ 12 ∧ 1 ≤ d ∧ d ≤ 31 ∧ 100 ≤ y then
        some (utcMidnight y m d - utcOffsetMinutes * 60000)
      else none
    | _, _, _ => none
  | _ => none

/-- The integer `parseInt` reads from a string of decimal digits with an optional
leading minus sign; other strings are outside this reference and are reported as
`NaN`. -/
def parseIntDecimal (s : String) : Option Int :=
  match s.data with
  | '-' :: cs => (natOfDigits cs).map (fun n => -(n : Int))
  | cs => (natOfDigits cs).map (fun n => (n : Int))

/-- The number `Number` reads from a string of decimal digits; other strings are outside
this reference and are reported as `NaN`. -/
def numberOfDecimal (s : String) : JsNumber :=
  match natOfDigits s.data with
  | some n => .finite n 0
  | none => .nan

/-- The text of an integral number; other numbers are shown as `#NUM!`. -/
def renderIntegral : JsNumber → String
  | .finite mantissa 0 => toString mantissa
  | _ => "#NUM!"

/-- A reference runtime: Node.js on plain decimal inputs, in a process whose local time
is `utcOffsetMinutes` ahead of UTC. -/
def nodeRuntime (utcOffsetMinutes : Int) : Runtime where
  parseInt := parseIntDecimal
  stringToNumber := numberOfDecimal
  parseDate := v8DateParse utcOffsetMinutes
  localDateOfParts := localDateOfDigits utcOffsetMinutes
  renderNumber := renderIntegral

/-! ## The clock -/

/-- A calendar date: year, month (1 to 12) and day of the month. -/
structure CalendarDate where
  year : Int
  month : Nat
  date : Int
  deriving DecidableEq, Repr

/-- The year of day number `n` (days since 1 January 1970), as `YearFromTime`: the year
`y` with `daysBeforeYear y ≤ n < daysBeforeYear (y + 1)`, found next to the estimate
`1970 + n / 365.2425`. -/
def yearOfDay (n : Int) : Int :=
  let c := 1970 + n * 400 / 146097
  if n < daysBeforeYear c then c - 1
  else if daysBeforeYear (c + 1) ≤ n then c + 1
  else c

/-- The month (1 to 12) of the day numbered `dayInYear` (from 0) within its year, as
`MonthFromTime`. -/
def monthOfYearDay (leap : Bool) (dayInYear : Int) : Nat :=
  if dayInYear < daysBeforeMonth leap 2 then 1
  else if dayInYear < daysBeforeMonth leap 3 then 2
  else if dayInYear < daysBeforeMonth leap 4 then 3
  else if dayInYear < daysBeforeMonth leap 5 then 4
  else if dayInYear < daysBeforeMonth leap 6 then 5
  else if dayInYear < daysBeforeMonth leap 7 then 6
  else if dayInYear < daysBeforeMonth leap 8 then 7
  else if dayInYear < daysBeforeMonth leap 9 then 8
  else if dayInYear < daysBeforeMonth leap 10 then 9
  else if dayInYear < daysBeforeMonth leap 11 then 10
  else if dayInYear < daysBeforeMonth leap 12 then 11
  else 12

/-- The calendar date of day number `n` (days since 1 January 1970). -/
def civilOfDay (n : Int) : CalendarDate :=
  let y := yearOfDay n
  let dayInYear := n - daysBeforeYear y
  let m := monthOfYearDay (isLeapYear y) dayInYear
  ⟨y, m, dayInYear - daysBeforeMonth (isLeapYear y) m + 1⟩

/-- The day number of a time value: `Day(t) = floor(t / msPerDay)`. -/
def dayOfTime (t : Int) : Int :=
  t / 86400000

/-- The calendar date a `Date` with time value `t` shows through `getFullYear`,
`getMonth` (plus one) and `getDate`, in a process whose local time is
`utcOffsetMinutes` ahead of UTC. -/
def localDate (utcOffsetMinutes : Int) (t : Int) : CalendarDate :=
  civilOfDay (dayOfTime (t + utcOffsetMinutes * 60000))

/-- A number written with at least `width` decimal digits. -/
def padNat (width : Nat) (n : Nat) : String :=
  String.mk (List.replicate (width - (toString n).length) '0') ++ toString n

/-- The date part of `toISOString()`, before the `T`, for day number `n`: `YYYY-MM-DD`,
with the six-digit signed year form outside the years 0 to 9999. -/
def isoDateString (n : Int) : String :=
  let c := civilOfDay n
  let year :=
    if 0 ≤ c.year ∧ c.year ≤ 9999 then padNat 4 c.year.toNat
    else if c.year < 0 then "-" ++ padNat 6 (-c.year).toNat
    else "+" ++ padNat 6 c.year.toNat
  year ++ "-" ++ padNat 2 c.month ++ "-" ++ padNat 2 c.date.toNat

/-- The string `tomorrowDateString` of lines 904-906 at the instant `now` (milliseconds
since the epoch), in a process whose local time is `utcOffsetMinutes` ahead of UTC:
`setDate(getDate() + 1)` moves the local time one day ahead, and `toISOString()` reads
the result in UTC. -/
def tomorrowDateString (utcOffsetMinutes : Int) (now : Int) : String :=
  let localTime := now + utcOffsetMinutes * 60000
  let timeWithinDay := localTime - dayOfTime localTime * 86400000
  let newLocalTime := (dayOfTime localTime + 1) * 86400000 + timeWithinDay
  isoDateString (dayOfTime (newLocalTime - utcOffsetMinutes * 60000))

/-- The time of day `HH:mm:ss` of a time value read in UTC. -/
def timeOfDayString (t : Int) : String :=
  let ms := t - dayOfTime t * 86400000
  padNat 2 (ms / 3600000).toNat ++ ":" ++ padNat 2 (ms / 60000 % 60).toNat ++ ":" ++
    padNat 2 (ms / 1000 % 60).toNat

/-- The function `getThaiDateTime` (lines 88-98) at the instant `now`: the date is the
UTC date of the instant seven hours later, and the time is the local time of day of
that shifted instant in the process zone. -/
def getThaiDateTime (utcOffsetMinutes : Int) (now : Int) : ThaiDateTime :=
  let bangkokTime := now + 7 * 60 * 60 * 1000
  ⟨isoDateString (dayOfTime bangkokTime),
    timeOfDayString (bangkokTime + utcOffsetMinutes * 60000)⟩

/-- Whether the instant `now` lies in the hour that starts at 06:00 on the Bangkok wall
clock (UTC+7), the time of the daily trigger of lines 967-977. -/
abbrev isDailyTriggerHour (now : Int) : Prop :=
  6 * 3600000 ≤ (now + 7 * 3600000) % 86400000 ∧ (now + 7 * 3600000) % 86400000 < 7 * 3600000

/-! ## POST /register and GET /check-user -/

/-- The fields of `req.body` that POST /register reads. -/
structure RegisterRequest where
  userId : Option String
  firstName : Option String
  lastName : Option String
  gender : Option String
  birthDay : Option String
  deriving DecidableEq, Repr

/-- Outcomes of the two row-store calls of POST /register. -/
structure RegisterFaults where
  fetch : Option String
  append : Option String
  deriving DecidableEq, Repr

/-- The value `age` of lines 207-213 at the instant `now`, in a process whose local time
is `utcOffsetMinutes` ahead of UTC; `none` is `NaN`, the age of an invalid date. -/
def registrationAge (rt : Runtime) (utcOffsetMinutes now : Int) (birthDay : String) :
    Option Int :=
  match rt.parseDate birthDay with
  | none => none
  | some birthTime =>
    let birthDate := localDate utcOffsetMinutes birthTime
    let today := localDate utcOffsetMinutes now
    let age := today.year - birthDate.year
    let m := (today.month : Int) - (birthDate.month : Int)
    if m < 0 ∨ (m = 0 ∧ today.date < birthDate.date) then some (age - 1) else some age

/-- The number written into the age cell. -/
def ageNumber (age : Option Int) : JsNumber :=
  match age with
  | none => .nan
  | some a => .finite a 0

/-- The row appended at line 221. -/
def registerRow (rt : Runtime) (utcOffsetMinutes now : Int) (body : RegisterRequest) : Row :=
  [jsString body.userId, jsString body.firstName, jsString body.lastName,
    jsString body.gender, jsString body.birthDay,
    rt.renderNumber (ageNumber (registrationAge rt utcOffsetMinutes now
      (jsString body.birthDay)))]

/-- The test `isDuplicate` of lines 196-197, over every row of the Users sheet. -/
def registerIsDuplicate (rows : Table) (userId : Option String) : Bool :=
  rows.any (fun row => cell row 0 == userId)

/-- The handler of POST /register (lines 182-230), as a function of the Users sheet. -/
def postRegister (rt : Runtime) (utcOffsetMinutes now : Int) (faults : RegisterFaults)
    (users : Table) (body : RegisterRequest) : Table × WriteResponse :=
  if !truthy body.userId || !truthy body.firstName || !truthy body.lastName ||
      !truthy body.gender || !truthy body.birthDay then
    (users, ⟨200, false, some "ข้อมูลไม่ครบ", false, false⟩)
  else
    match fetchRows faults.fetch users with
    | .error e => (users, ⟨200, false, some e.message, false, false⟩)
    | .ok rows =>
      if registerIsDuplicate rows body.userId then
        (users, ⟨200, false, some "คุณเคยลงทะเบียนแล้ว สามารถกรอกค่าน้ำตาลได้เลย", false, false⟩)
      else
        match appendRow faults.append users (registerRow rt utcOffsetMinutes now body) with
        | .error e => (users, ⟨200, false, some e.message, false, false⟩)
        | .ok users' => (users', ⟨200, true, none, false, false⟩)

/-- The handler of GET /check-user (lines 107-119): the flag `registered` of its
response.  The handler has no `try`, so a fetch that throws leaves the handler as an
exception and no response is built. -/
def getCheckUser (fetchFault : Option String) (users : Table) (userId : Option String) :
    Except JsError Bool :=
  match fetchRows fetchFault users with
  | .error e => .error e
  | .ok rows => .ok (rows.any (fun r => cell r 0 == userId))

/-! ## GET /medication/records -/

/-- A record of the medication listing (lines 652-658). -/
structure MedicationRecord where
  date : String
  timeOfDay : String
  mealRelation : String
  status : String
  logTime : String
  deriving DecidableEq, Repr

/-- The `pagination` object of lines 664-671; `limit` is `parseInt(limit)`, `none` being
`NaN`. -/
structure MedicationPagination where
  currentPage : Int
  totalPages : Int
  totalRecords : Nat
  limit : Option Int
  hasPrev : Bool
  hasNext : Bool
  deriving DecidableEq, Repr

/-- The response of GET /medication/records; a failure carries neither `records` nor
`pagination`. -/
structure MedicationListing where
  success : Bool
  message : Option String
  records : Option (List MedicationRecord)
  pagination : Option MedicationPagination
  deriving DecidableEq, Repr

/-- The integer a number is, if it is one. -/
def JsNumber.toInt? : JsNumber → Option Int
  | .finite mantissa exponent =>
    if 0 ≤ exponent then some (mantissa * 2 ^ exponent.toNat)
    else if mantissa % 2 ^ (-exponent).toNat = 0 then
      some (mantissa / 2 ^ (-exponent).toNat)
    else none
  | _ => none

/-- The number arithmetic makes of a query parameter whose default, when absent, is the
number `fallback`. -/
def paramNumber (rt : Runtime) (param : Option String) (fallback : Int) : JsNumber :=
  match param with
  | none => .finite fallback 0
  | some s => rt.stringToNumber s

/-- The value of `parseInt(param)` for a query parameter whose default, when absent, is
the number `fallback`; `none` is `NaN`. -/
def paramParseInt (rt : Runtime) (param : Option String) (fallback : Int) : Option Int :=
  match param with
  | none => some fallback
  | some s => rt.parseInt s

/-- The rows `userRecords` of lines 626-628. -/
def medicationUserRows (rows : Table) (userId : Option String) : List Row :=
  (rows.drop 1).filter
    (fun row => truthy (cell row 0) && jsString (cell row 0) == jsString userId)

/-- The time value of the `Date` a row is compared by (lines 632-633). -/
def medicationDateKey (rt : Runtime) (row : Row) : Option Int :=
  rt.parseDate (jsString (cell row 1) ++ " " ++ jsString (jsOr (cell row 5) (some "00:00:00")))

/-- The comparator of lines 631-635: `dateB - dateA`. -/
def medicationCompare (rt : Runtime) (a b : Row) : Option Int :=
  subtractDates (medicationDateKey rt b) (medicationDateKey rt a)

/-- The array `sortedRecords` of lines 626-635. -/
def medicationSorted (rt : Runtime) (rows : Table) (userId : Option String) : List Row :=
  jsSort (medicationCompare rt) (medicationUserRows rows userId)

/-- The mapping of lines 648-659. -/
def formatMedication (row : Row) : MedicationRecord :=
  ⟨jsString (jsOr (cell row 1) (some "")), jsString (jsOr (cell row 2) (some "")),
    jsString (jsOr (cell row 3) (some "")), jsString (jsOr (cell row 4) (some "")),
    jsString (jsOr (cell row 5) (some ""))⟩

/-- The pagination of lines 637-645 and 664-671, for integral values `page` of
`Number(page)` and `limit ≠ 0` of `Number(limit)`, and the value `limitParsed` of
`parseInt(limit)`; a `NaN` end index makes `slice` stop at 0. -/
def medicationPaginate (sortedRecords : List Row) (page limit : Int)
    (limitParsed : Option Int) : List Row × MedicationPagination :=
  let totalRecords := sortedRecords.length
  let totalPages := ceilDiv totalRecords limit
  let currentPage := max 1 (min page totalPages)
  let startIndex := (currentPage - 1) * limit
  let endIndex := limitParsed.map (fun l => startIndex + l)
  (jsSlice sortedRecords startIndex (endIndex.getD 0),
    { currentPage := currentPage
      totalPages := totalPages
      totalRecords := totalRecords
      limit := limitParsed
      hasPrev := decide (currentPage > 1)
      hasNext := decide (currentPage < totalPages) })

/-- The handler of GET /medication/records (lines 606-680); `fetchFault` is the outcome
of its row-store call.  The handler computes with the raw query strings; the model covers
the requests for which `Number(page)` is an integer and `Number(limit)` a non-zero
integer, and is `none` on the others, whose page arithmetic involves `NaN`, an infinity
or a fraction. -/
def getMedicationRecords (rt : Runtime) (fetchFault : Option String) (store : Store)
    (query : ListingQuery) : Option MedicationListing :=
  if !truthy query.userId then
    some ⟨false, some "ต้องระบุ userId", none, none⟩
  else
    match fetchRows fetchFault store.medicationLogs with
    | .error e => some ⟨false, some ("ไม่สามารถดึงข้อมูลได้: " ++ e.message), none, none⟩
    | .ok rows =>
      match (paramNumber rt query.page 1).toInt?, (paramNumber rt query.limit 12).toInt? with
      | some page, some limit =>
        if limit = 0 then none
        else
          let result := medicationPaginate (medicationSorted rt rows query.userId) page limit
            (paramParseInt rt query.limit 12)
          some ⟨true, none, some (result.1.map formatMedication), some result.2⟩
      | _, _ => none

/-! ## The validation rule of POST /sugar, in the words of the specification -/

/-- Whether a numeric field is missing: absent or `null`. -/
def JsValue.isMissing : JsValue → Bool
  | .undefined => true
  | .null => true
  | _ => false

/-- The first of three aliases of a numeric field that is present, that is neither absent
nor `null`; `none` when the field is missing under all three names. -/
def firstPresent (a b c : JsValue) : Option JsValue :=
  if !a.isMissing then some a
  else if !b.isMissing then some b
  else if !c.isMissing then some c
  else none

/-- The first of three aliases of a textual field that is present. -/
def firstPresentText (a b c : Option String) : Option String :=
  match a, b, c with
  | some s, _, _ => some s
  | none, some s, _ => some s
  | none, none, c => c

/-- Whether a value converts, with `Number`, to a finite number that is not negative. -/
def isValidReading (rt : Runtime) (v : JsValue) : Bool :=
  (toNumber rt v).isFinite && !(toNumber rt v).ltZero

/-- The response of lines 254-257 to a request that fails validation. -/
def validationFailure : WriteResponse :=
  ⟨400, false, some "ข้อมูลไม่ครบหรือไม่ถูกต้อง", false, false⟩

/-! ## GET /appointment/records -/

/-- A record of the appointment listing (lines 758-762). -/
structure AppointmentRecord where
  date : String
  time : String
  note : String
  deriving DecidableEq, Repr

/-- The response of GET /appointment/records. -/
structure AppointmentListing where
  status : Nat
  success : Bool
  message : Option String
  appointments : List AppointmentRecord
  pagination : Option Pagination
  deriving DecidableEq, Repr

/-- The rows `userAppointments` of lines 751-753. -/
def appointmentUserRows (rows : Table) (userId : Option String) : List Row :=
  (rows.drop 1).filter (fun row => cell row 0 == userId)

/-- The mapping of lines 758-762. -/
def toAppointmentRecord (row : Row) : AppointmentRecord :=
  ⟨jsString (jsOr (cell row 1) (some "")), jsString (jsOr (cell row 2) (some "")),
    jsString (jsOr (cell row 3) (some ""))⟩

/-- The comparator of lines 765-769: `dateB - dateA`. -/
def appointmentCompare (rt : Runtime) (a b : AppointmentRecord) : Option Int :=
  subtractDates (rt.parseDate (b.date ++ " " ++ b.time)) (rt.parseDate (a.date ++ " " ++ a.time))

/-- The sorted array `allAppointments` of lines 751-769. -/
def appointmentAllRecords (rt : Runtime) (rows : Table) (userId : Option String) :
    List AppointmentRecord :=
  jsSort (appointmentCompare rt) ((appointmentUserRows rows userId).map toAppointmentRecord)

/-- The pagination of lines 771-803: the page of appointments and its metadata. -/
def appointmentPaginate (allAppointments : List AppointmentRecord) (pageNum limitNum : Int) :
    List AppointmentRecord × Pagination :=
  let totalRecords := allAppointments.length
  let totalPages := ceilDiv totalRecords limitNum
  let startIndex := (pageNum - 1) * limitNum
  let endIndex := startIndex + limitNum
  (jsSlice allAppointments startIndex endIndex,
    { currentPage := pageNum
      totalPages := totalPages
      totalRecords := totalRecords
      recordsPerPage := limitNum
      hasNext := decide (pageNum < totalPages)
      hasPrev := decide (pageNum > 1)
      nextPage := if pageNum < totalPages then some (pageNum + 1) else none
      prevPage := if pageNum > 1 then some (pageNum - 1) else none })

/-- The handler of GET /appointment/records (lines 724-813); `fetchFault` is the outcome
of its row-store call. -/
def getAppointmentRecords (rt : Runtime) (fetchFault : Option String) (store : Store)
    (query : ListingQuery) : AppointmentListing :=
  if !truthy query.userId then
    ⟨400, false, some "ต้องระบุ userId", [], none⟩
  else
    match fetchRows fetchFault store.doctorAppointments with
    | .error e =>
      ⟨500, false, some (messageOr e.message "เกิดข้อผิดพลาดในการดึงข้อมูลการนัดหมาย"), [], none⟩
    | .ok rows =>
      let page := appointmentPaginate (appointmentAllRecords rt rows query.userId)
        (parseIntOr rt query.page 1) (parseIntOr rt query.limit 12)
      ⟨200, true, none, page.1, some page.2⟩

/-! ## Replacing the header row -/

/-- The table with its first row replaced by `header`. -/
def replaceHeader (header : Row) (table : Table) : Table :=
  header :: table.drop 1

/-! ## Sample data -/

/-- A Users sheet: the header row and one registered user. -/
def sampleUsers : Table :=
  [["userId", "firstName", "lastName", "gender", "birthDay"],
   ["U1", "Somchai", "Jaidee", "male", "1990-05-10"]]

/-- A SugarRecords sheet: the header row and one reading of user U1. -/
def sampleSugarRecords : Table :=
  [["userId", "sugar", "type", "period", "date"],
   ["U1", "110", "ก่อนอาหาร", "เช้า", "2025-09-15"]]

/-- A store with one registered user and one sugar reading. -/
def sampleStore : Store :=
  ⟨sampleUsers, sampleSugarRecords,
    [["userId", "date", "timeOfDay", "mealRelation", "status", "logTime"]],
    [["userId", "date", "time", "note"]]⟩

/-- A clock reading: 15 September 2025, 08:30 in Bangkok. -/
def sampleNow : ThaiDateTime :=
  ⟨"2025-09-15", "08:30:00"⟩

/-- A sugar submission with the numeric value 120. -/
def sampleSugarRequest (userId type period : String) : SugarRequest :=
  { userId := some userId, user_id := none, sugar := .number (.finite 120 0),
    value := .undefined, glucose := .undefined, type := some type, mealTiming := none,
    meal_timing := none, period := some period, timeOfDay := none, time_of_day := none }

/-- Every row-store call of POST /sugar succeeds. -/
def noSugarFaults : SugarFaults :=
  ⟨none, none, none⟩

/-- A medication log of a user U9, who has no row in `sampleUsers`. -/
def sampleMedicationRequest : MedicationLogRequest :=
  ⟨some "U9", some "morning", some "before", some "taken"⟩

/-- A DoctorAppointments sheet: the header row and one appointment of user U1. -/
def sampleAppointments : Table :=
  [["userId", "date", "time", "note"], ["U1", "2025-09-16", "14:30"]]

/-- An appointment request of the given user, date and time, without a note. -/
def sampleAppointmentRequest (userId date time : String) : AppointmentRequest :=
  ⟨some userId, some date, some time, none⟩

/-- Every row-store call of POST /appointment succeeds. -/
def noAppointmentFaults : AppointmentFaults :=
  ⟨none, none⟩

/-- A DoctorAppointments sheet with appointments of A and B on 16 September 2025 and
one of C on 15 September 2025. -/
def sampleReminderSheet : Table :=
  [["userId", "date", "time", "note"],
   ["A", "2025-09-16", "09:00", "checkup"],
   ["C", "2025-09-15", "10:00"],
   ["B", "2025-09-16", "13:30"]]

/-- A SugarRecords sheet with three readings of U1 on two dates and one of U2. -/
def sampleChartRecords : Table :=
  [["userId", "sugar", "type", "period", "date"],
   ["U1", "110", "ก่อนอาหาร", "เช้า", "14/9/2025"],
   ["U2", "95", "ก่อนอาหาร", "เช้า", "14/9/2025"],
   ["U1", "150", "หลังอาหาร", "เย็น", "14/9/2025"],
   ["U1", "105", "ก่อนอาหาร", "เช้า", "15/9/2025"]]

/-- A store whose SugarRecords sheet is `sampleChartRecords`. -/
def sampleChartStore : Store :=
  { sampleStore with sugarRecords := sampleChartRecords }

/-- A SugarRecords sheet with two readings of U1 on 5 September 2025, the first dated
without and the second with zero padding. -/
def mixedPaddingRecords : Table :=
  [["userId", "sugar", "type", "period", "date"],
   ["U1", "100", "ก่อนอาหาร", "เช้า", "5/9/2025"],
   ["U1", "140", "หลังอาหาร", "เช้า", "05/09/2025"]]

/-- A SugarRecords sheet with readings of U1 dated 1, 15 and 5 September 2025. -/
def threeDatesRecords : Table :=
  [["userId", "sugar", "type", "period", "date"],
   ["U1", "100", "ก่อนอาหาร", "เช้า", "1/9/2025"],
   ["U1", "140", "ก่อนอาหาร", "เช้า", "15/9/2025"],
   ["U1", "120", "ก่อนอาหาร", "เช้า", "5/9/2025"]]

/-- The dates of the records a sugar listing returns, in order. -/
def listedDates (listing : SugarListing) : List (Option String) :=
  listing.records.map (fun r => r.date)

/-- The instant 2025-09-14T23:00:00Z, which is 06:00 on 15 September 2025 in Bangkok. -/
def sampleTriggerInstant : Int :=
  1757890800000

/-- A registration of a user born on the given day. -/
def sampleRegisterRequest (userId birthDay : String) : RegisterRequest :=
  ⟨some userId, some "Malee", some "Jaidee", some "female", some birthDay⟩

/-- Every row-store call of POST /register succeeds. -/
def noRegisterFaults : RegisterFaults :=
  ⟨none, none⟩

/-- A MedicationLogs sheet with three logs of U1 and one of U2. -/
def sampleMedicationLogs : Table :=
  [["userId", "date", "timeOfDay", "mealRelation", "status", "logTime"],
   ["U1", "2025-09-14", "morning", "before", "taken", "08:00:00"],
   ["U2", "2025-09-14", "morning", "before", "taken", "08:05:00"],
   ["U1", "2025-09-14", "evening", "after", "missed", "19:00:00"],
   ["U1", "2025-09-15", "morning", "before", "taken", "08:10:00"]]

/-- A store whose MedicationLogs sheet is `sampleMedicationLogs`. -/
def sampleMedicationStore : Store :=
  { sampleStore with medicationLogs := sampleMedicationLogs }

/-- A sugar submission that names the user only through the alias `user_id`. -/
def aliasSugarRequest : SugarRequest :=
  { userId := none, user_id := some "U1", sugar := .number (.finite 120 0),
    value := .undefined, glucose := .undefined, type := some "after", mealTiming := none,
    meal_timing := none, period := some "evening", timeOfDay := none, time_of_day := none }

/-- A store whose SugarRecords sheet is still empty: it has no header row. -/
def emptySugarStore : Store :=
  { sampleStore with sugarRecords := [] }

/-- A SugarRecords sheet with two rows of U1, the second ending before its date cell. -/
def datelessRecords : Table :=
  [["userId", "sugar", "type", "period", "date"],
   ["U1", "110", "ก่อนอาหาร", "เช้า", "14/9/2025"],
   ["U1", "150", "หลังอาหาร", "เย็น"]]

/-- A DoctorAppointments sheet with two rows of U1, the second ending before its date
cell. -/
def datelessAppointments : Table :=
  [["userId", "date", "time", "note"], ["U1", "2025-09-16", "14:30"], ["U1"]]

/-- A store whose SugarRecords and DoctorAppointments sheets each hold a row of U1
without a date cell. -/
def datelessStore : Store :=
  { sampleStore with sugarRecords := datelessRecords, doctorAppointments := datelessAppointments }

/-- A SugarRecords sheet in which the value cell of the one reading of U1 is not a
number. -/
def unreadableValueRecords : Table :=
  [["userId", "sugar", "type", "period", "date"],
   ["U1", "n/a", "ก่อนอาหาร", "เช้า", "15/9/2025"]]

/-- A store whose SugarRecords sheet is `unreadableValueRecords`. -/
def unreadableValueStore : Store :=
  { sampleStore with sugarRecords := unreadableValueRecords }

/-- The instant 2025-09-15T17:00:00Z: noon of 15 September 2025 five hours west of
UTC. -/
def sampleNoonInstant : Int :=
  1757955600000

/-! ## Theorems: POST /sugar -/

theorem sugarIsDuplicate_of_exists (records : Table) (userId type period : Option String)
    (date : String)
    (h : ∃ row ∈ records.drop 1,
      jsString (cell row 0) = jsString userId ∧ jsString (cell row 2) = jsString type ∧
      jsString (cell row 3) = jsString period ∧ jsString (cell row 4) = date) :
    sugarIsDuplicate records userId type period date = true := by
  obtain ⟨row, hmem, h0, h2, h3, h4⟩ := h
  unfold sugarIsDuplicate
  rw [List.any_eq_true]
  exact ⟨row, hmem, by simp [sugarRowMatches, h0, h2, h3, h4]⟩

/-- The `try` block of POST /sugar on a valid, registered, duplicate submission throws
the `ReferenceError` of `dateStr`, whatever the request and the sheets are. -/
theorem postSugarTry_duplicate (rt : Runtime) (faults : SugarFaults) (now : ThaiDateTime)
    (store : Store) (body : SugarRequest)
    (hvalid : body.invalid rt = false)
    (hreg : isRegistered store.users body.resolvedUserId = true)
    (hu : faults.usersFetch = none) (hr : faults.recordsFetch = none)
    (hdup : sugarIsDuplicate store.sugarRecords body.resolvedUserId
      (translateType body.typeRaw) (translatePeriod body.periodRaw) now.date = true) :
    postSugarTry rt faults now store body = .error (.referenceError "dateStr") := by
  simp [postSugarTry, hvalid, hreg, hu, hr, hdup, fetchRows, dateStr]

/-- Every valid submission of a registered user that repeats the key of a data row is
answered with status 500 and the generic message of the outer `catch`. -/
theorem postSugar_duplicate_internal_error (rt : Runtime) (faults : SugarFaults)
    (now : ThaiDateTime) (store : Store) (body : SugarRequest)
    (hvalid : body.invalid rt = false)
    (hreg : isRegistered store.users body.resolvedUserId = true)
    (hu : faults.usersFetch = none) (hr : faults.recordsFetch = none)
    (hdup : sugarIsDuplicate store.sugarRecords body.resolvedUserId
      (translateType body.typeRaw) (translatePeriod body.periodRaw) now.date = true) :
    postSugar rt faults now store body =
      (store, ⟨500, false, some "เกิดข้อผิดพลาดภายในเซิร์ฟเวอร์", false, false⟩) := by
  simp [postSugar, postSugarTry_duplicate rt faults now store body hvalid hreg hu hr hdup]

/-- A valid submission whose userId, as a string, is the first cell of no row of Users,
the header row included, is answered with the not-registered failure and appends
nothing. -/
theorem postSugar_not_registered (rt : Runtime) (faults : SugarFaults)
    (now : ThaiDateTime) (store : Store) (body : SugarRequest)
    (hvalid : body.invalid rt = false) (hu : faults.usersFetch = none)
    (hnot : ∀ row ∈ store.users, jsString (cell row 0) ≠ jsString body.resolvedUserId) :
    postSugar rt faults now store body =
      (store, ⟨404, false, some "กรุณาลงทะเบียนก่อนที่เมนูลงทะเบียน", true, false⟩) := by
  have hreg : isRegistered store.users body.resolvedUserId = false := by
    rw [← Bool.not_eq_true]
    intro h
    unfold isRegistered at h
    rw [List.any_eq_true] at h
    obtain ⟨row, hmem, hrow⟩ := h
    exact hnot row hmem (by simpa using hrow)
  simp [postSugar, postSugarTry, hvalid, hu, hreg, fetchRows]

/-- C1: whatever the request, the sheets and the outcomes of the row-store calls, when
some data row of SugarRecords (a row after the header) carries the request's userId, its
translated meal-timing label, its translated time-of-day label and the server-local
date, each compared as a string, POST /sugar appends nothing: the store after the
request is the store before it. -/
theorem postSugar_duplicate_no_append (rt : Runtime) (faults : SugarFaults)
    (now : ThaiDateTime) (store : Store) (body : SugarRequest)
    (hdup : ∃ row ∈ store.sugarRecords.drop 1,
      jsString (cell row 0) = jsString body.resolvedUserId ∧
      jsString (cell row 2) = jsString (translateType body.typeRaw) ∧
      jsString (cell row 3) = jsString (translatePeriod body.periodRaw) ∧
      jsString (cell row 4) = now.date) :
    (postSugar rt faults now store body).1 = store := by
  have hd := sugarIsDuplicate_of_exists _ _ _ _ _ hdup
  unfold postSugar postSugarTry
  cases hinv : body.invalid rt
  · cases hu : faults.usersFetch
    · cases hreg : isRegistered store.users body.resolvedUserId
      · simp [fetchRows, hreg]
      · cases hr : faults.recordsFetch
        · simp [fetchRows, hreg, hd, dateStr]
        · simp [fetchRows, hreg]
    · simp [fetchRows]
  · simp

/-- C1 at a concrete input: user U1 resubmits the morning before-meal reading of the
day. -/
theorem postSugar_duplicate_no_append_witness :
    (postSugar (nodeRuntime 0) noSugarFaults sampleNow sampleStore
      (sampleSugarRequest "U1" "before" "morning")).1 = sampleStore :=
  postSugar_duplicate_no_append _ _ _ _ _
    ⟨["U1", "110", "ก่อนอาหาร", "เช้า", "2025-09-15"], by decide, by decide, by decide,
      by decide, by decide⟩

/-- C2 (code defect): the submission of user U1, valid, registered in a data row of
Users, and repeating the key of an existing data row of SugarRecords, is answered with
status 500 and the generic internal-error message, with no `isDuplicate` flag: the 409
response is never sent because composing its message reads the undeclared `dateStr`. -/
theorem postSugar_duplicate_answers_500 :
    (sampleSugarRequest "U1" "before" "morning").invalid (nodeRuntime 0) = false ∧
    (∃ row ∈ sampleStore.users.drop 1, cell row 0 = some "U1") ∧
    (∃ row ∈ sampleStore.sugarRecords.drop 1,
      cell row 0 = some "U1" ∧ cell row 2 = some "ก่อนอาหาร" ∧ cell row 3 = some "เช้า" ∧
      cell row 4 = some sampleNow.date) ∧
    (postSugar (nodeRuntime 0) noSugarFaults sampleNow sampleStore
      (sampleSugarRequest "U1" "before" "morning")).2 =
      ⟨500, false, some "เกิดข้อผิดพลาดภายในเซิร์ฟเวอร์", false, false⟩ := by
  decide

/-- C3 (code defect): with the header row of Users starting with the text userId, a
valid submission whose userId is that text, which no data row of Users carries, is not
answered with the not-registered failure: the registration test scans the header row
too, the write succeeds and a row is appended to SugarRecords. -/
theorem postSugar_header_row_passes_registration :
    (sampleSugarRequest "userId" "before" "morning").invalid (nodeRuntime 0) = false ∧
    (∀ row ∈ sampleStore.users.drop 1, jsString (cell row 0) ≠ jsString (some "userId")) ∧
    postSugar (nodeRuntime 0) noSugarFaults sampleNow sampleStore
      (sampleSugarRequest "userId" "before" "morning") =
      ({ sampleStore with
          sugarRecords := sampleSugarRecords ++
            [["userId", "120", "ก่อนอาหาร", "เช้า", "2025-09-15"]] },
        ⟨200, true, some "บันทึกค่าน้ำตaลสำเร็จ", false, false⟩) := by
  decide

/-! ## Theorems: POST /medication-log -/

/-- C4 (counterexample): a medication log whose userId appears in no row of the Users
sheet is accepted and its row is appended to MedicationLogs. -/
theorem postMedicationLog_unregistered_appends :
    (∀ row ∈ sampleStore.users, cell row 0 ≠ some "U9") ∧
    postMedicationLog none sampleNow sampleStore sampleMedicationRequest =
      ({ sampleStore with
          medicationLogs := sampleStore.medicationLogs ++
            [["U9", "2025-09-15", "morning", "before", "taken", "08:30:00"]] },
        ⟨200, true, none, false, false⟩) := by
  decide

/-- C4 (amended): POST /medication-log has no registration gate.  The write succeeds
exactly when userId, timeOfDay, mealRelation and status are all present and non-empty
and the row-store append succeeds; a successful write appends exactly the row
`[userId, date, timeOfDay, mealRelation, status, logTime]` and a rejected one leaves the
store unchanged; and neither the response nor the resulting MedicationLogs sheet depends
on the content of the Users sheet. -/
theorem postMedicationLog_no_registration_gate (appendFault : Option String)
    (now : ThaiDateTime) (store : Store) (body : MedicationLogRequest) :
    ((postMedicationLog appendFault now store body).2.success = true ↔
      (truthy body.userId = true ∧ truthy body.timeOfDay = true ∧
        truthy body.mealRelation = true ∧ truthy body.status = true ∧ appendFault = none)) ∧
    (postMedicationLog appendFault now store body).1 =
      (if (postMedicationLog appendFault now store body).2.success = true then
        { store with medicationLogs := store.medicationLogs ++ [medicationLogRow now body] }
      else store) ∧
    ∀ users : Table,
      (postMedicationLog appendFault now { store with users := users } body).2 =
        (postMedicationLog appendFault now store body).2 ∧
      (postMedicationLog appendFault now { store with users := users } body).1.medicationLogs =
        (postMedicationLog appendFault now store body).1.medicationLogs := by
  unfold postMedicationLog
  cases h1 : truthy body.userId <;> cases h2 : truthy body.timeOfDay <;>
    cases h3 : truthy body.mealRelation <;> cases h4 : truthy body.status <;>
    cases appendFault <;> simp [appendRow]

/-! ## Theorems: POST /appointment -/

theorem appointmentIsDuplicate_iff (rows : Table) (body : AppointmentRequest) :
    appointmentIsDuplicate rows body = true ↔
      (body.userId, body.date, body.time) ∈ rows.map appointmentKey := by
  unfold appointmentIsDuplicate
  rw [List.any_eq_true, List.mem_map]
  constructor
  · rintro ⟨row, hmem, h⟩
    refine ⟨row, hmem, ?_⟩
    simp [appointmentRowMatches] at h
    simp [appointmentKey, h]
  · rintro ⟨row, hmem, h⟩
    refine ⟨row, hmem, ?_⟩
    simp [appointmentKey] at h
    simp [appointmentRowMatches, h]

theorem truthy_some (x : Option String) (h : truthy x = true) : some (jsString x) = x := by
  cases x with
  | none => simp [truthy] at h
  | some s => rfl

/-- One appointment write keeps the natural keys of the sheet pairwise distinct. -/
theorem postAppointment_nodup (faults : AppointmentFaults) (table : Table)
    (body : AppointmentRequest) (h : (table.map appointmentKey).Nodup) :
    ((postAppointment faults table body).1.map appointmentKey).Nodup := by
  unfold postAppointment
  cases h1 : truthy body.userId
  · simpa using h
  cases h2 : truthy body.date
  · simpa using h
  cases h3 : truthy body.time
  · simpa using h
  cases hf : faults.fetch
  · cases hd : appointmentIsDuplicate table body
    · cases ha : faults.append
      · have hnot : (body.userId, body.date, body.time) ∉ table.map appointmentKey := by
          rw [← appointmentIsDuplicate_iff]; simp [hd]
        have hkey : appointmentKey (appointmentRow body) = (body.userId, body.date, body.time) := by
          simp [appointmentKey, appointmentRow, cell, truthy_some, h1, h2, h3]
        simp only [fetchRows, appendRow, hd]
        simp only [Bool.not_true, Bool.or_false, Bool.false_eq_true, if_false, List.map_append, List.map_cons, List.map_nil]
        rw [List.nodup_append]
        refine ⟨h, List.nodup_singleton _, ?_⟩
        intro k hk hk2
        simp at hk2
        rw [hk2, hkey] at hk
        exact hnot hk
      · simpa [fetchRows, appendRow, hd] using h
    · simpa [fetchRows, hd] using h
  · simpa [fetchRows] using h

theorem runAppointments_nodup (requests : List (AppointmentFaults × AppointmentRequest)) :
    ∀ table : Table, (table.map appointmentKey).Nodup →
      ((runAppointments table requests).map appointmentKey).Nodup := by
  induction requests with
  | nil => intro table h; exact h
  | cons r rest ih =>
    intro table h
    obtain ⟨faults, body⟩ := r
    exact ih _ (postAppointment_nodup faults table body h)

theorem postAppointment_duplicate (faults : AppointmentFaults) (table : Table)
    (body : AppointmentRequest)
    (h : ∃ row ∈ table, cell row 0 = body.userId ∧ cell row 1 = body.date ∧ cell row 2 = body.time) :
    (postAppointment faults table body).2.success = false ∧
      (postAppointment faults table body).1 = table := by
  have hd : appointmentIsDuplicate table body = true := by
    obtain ⟨row, hmem, h0, h1, h2⟩ := h
    unfold appointmentIsDuplicate
    rw [List.any_eq_true]
    exact ⟨row, hmem, by simp [appointmentRowMatches, h0, h1, h2]⟩
  unfold postAppointment
  cases h1 : truthy body.userId <;> cases h2 : truthy body.date <;>
    cases h3 : truthy body.time <;> cases hf : faults.fetch <;> simp [fetchRows, hd]

/-- C5: whatever the outcomes of the row-store calls, when some row of
DoctorAppointments carries the userId, date and time of the request, POST /appointment
answers with success false and leaves the sheet unchanged; and from a sheet whose rows
have pairwise distinct (userId, date, time) keys, every sequence of appointment writes
leads to a sheet whose rows have pairwise distinct keys. -/
theorem postAppointment_never_duplicates (faults : AppointmentFaults) (table : Table)
    (body : AppointmentRequest) :
    ((∃ row ∈ table,
        cell row 0 = body.userId ∧ cell row 1 = body.date ∧ cell row 2 = body.time) →
      (postAppointment faults table body).2.success = false ∧
        (postAppointment faults table body).1 = table) ∧
    ∀ requests : List (AppointmentFaults × AppointmentRequest),
      (table.map appointmentKey).Nodup →
        ((runAppointments table requests).map appointmentKey).Nodup :=
  ⟨postAppointment_duplicate faults table body,
    fun requests h => runAppointments_nodup requests table h⟩

/-- C5 at a concrete input: the appointment of U1 on 16 September at 14:30 is refused a
second time, and a run that submits a new appointment twice stores it once. -/
theorem postAppointment_never_duplicates_witness :
    ((postAppointment noAppointmentFaults sampleAppointments
        (sampleAppointmentRequest "U1" "2025-09-16" "14:30")).2.success = false ∧
      (postAppointment noAppointmentFaults sampleAppointments
        (sampleAppointmentRequest "U1" "2025-09-16" "14:30")).1 = sampleAppointments) ∧
    ((runAppointments sampleAppointments
        [(noAppointmentFaults, sampleAppointmentRequest "U2" "2025-09-20" "09:00"),
         (noAppointmentFaults, sampleAppointmentRequest "U2" "2025-09-20" "09:00"),
         (noAppointmentFaults, sampleAppointmentRequest "U1" "2025-09-16" "14:30")]).map
      appointmentKey).Nodup :=
  ⟨(postAppointment_never_duplicates noAppointmentFaults sampleAppointments
      (sampleAppointmentRequest "U1" "2025-09-16" "14:30")).1
      ⟨["U1", "2025-09-16", "14:30"], by decide, by decide, by decide, by decide⟩,
    (postAppointment_never_duplicates noAppointmentFaults sampleAppointments
      (sampleAppointmentRequest "U1" "2025-09-16" "14:30")).2 _ (by decide)⟩

/-! ## Theorems: GET /sugar/records after POST /sugar -/

theorem isRegistered_of_data_row (users : Table) (userId : Option String)
    (h : ∃ row ∈ users.drop 1, cell row 0 = userId) : isRegistered users userId = true := by
  obtain ⟨row, hmem, h0⟩ := h
  unfold isRegistered
  rw [List.any_eq_true]
  exact ⟨row, List.mem_of_mem_drop hmem, by simp [h0]⟩

theorem sugarIsDuplicate_eq_false (records : Table) (userId type period : Option String)
    (date : String)
    (h : ¬ ∃ row ∈ records.drop 1,
      jsString (cell row 0) = jsString userId ∧ jsString (cell row 2) = jsString type ∧
      jsString (cell row 3) = jsString period ∧ jsString (cell row 4) = date) :
    sugarIsDuplicate records userId type period date = false := by
  rw [← Bool.not_eq_true]
  intro hd
  apply h
  unfold sugarIsDuplicate at hd
  rw [List.any_eq_true] at hd
  obtain ⟨row, hmem, hrow⟩ := hd
  simp [sugarRowMatches] at hrow
  exact ⟨row, hmem, hrow.1.1.1, hrow.1.1.2, hrow.1.2, hrow.2⟩

theorem sugarUserRows_append (rows : Table) (userId : Option String) (row : Row)
    (hne : rows ≠ []) (hrow : cell row 0 = userId) :
    sugarUserRows (rows ++ [row]) userId = sugarUserRows rows userId ++ [row] := by
  cases rows with
  | nil => exact absurd rfl hne
  | cons header data => simp [sugarUserRows, hrow]

/-- When every row of the user carries a date cell, the comparator never throws and the
full listing is the sorted list of the user's records. -/
theorem sugarAllRecords_ok (rt : Runtime) (rows : Table) (userId : Option String)
    (hdates : ∀ row ∈ sugarUserRows rows userId, cell row 4 ≠ none) :
    sugarAllRecords rt rows userId =
      .ok (jsSort (sugarCompare rt) ((sugarUserRows rows userId).map toSugarRecord)) := by
  unfold sugarAllRecords
  have hany : ((sugarUserRows rows userId).map toSugarRecord).any (fun r => r.date == none)
      = false := by
    rw [← Bool.not_eq_true, List.any_eq_true]
    rintro ⟨r, hr, hnone⟩
    rw [List.mem_map] at hr
    obtain ⟨row, hmem, rfl⟩ := hr
    simp [toSugarRecord] at hnone
    exact hdates row hmem hnone
  simp [hany]

theorem translateType_some (x : Option String) (h : truthy x = true) :
    some (jsString (translateType x)) = translateType x := by
  cases x with
  | none => simp [truthy] at h
  | some s => unfold translateType; split_ifs <;> rfl

theorem translatePeriod_some (x : Option String) (h : truthy x = true) :
    some (jsString (translatePeriod x)) = translatePeriod x := by
  cases x with
  | none => simp [truthy] at h
  | some s => unfold translatePeriod; split_ifs <;> rfl

theorem jsSort_perm {α : Type} (compare : α → α → Option Int) (l : List α) :
    (jsSort compare l).Perm l :=
  List.perm_insertionSort _ l

/-- C6 (counterexample): on a SugarRecords sheet that is still empty, the valid submission
of the registered user U1 succeeds and appends exactly one row, and the full listing of
U1 has no record before the request and no record after it: both listings skip the
first row of the sheet as its header, and the appended row is that first row.  And on
the sample sheet, where the same submission matches no row, an append that throws is
answered with status 500 by the `catch` of the handler and leaves the sheet as it was. -/
theorem postSugar_first_row_not_listed :
    sugarAllRecords (nodeRuntime 0) emptySugarStore.sugarRecords (some "U1") = .ok [] ∧
    sugarAllRecords (nodeRuntime 0)
      (postSugar (nodeRuntime 0) noSugarFaults sampleNow emptySugarStore
        (sampleSugarRequest "U1" "after" "evening")).1.sugarRecords (some "U1") = .ok [] ∧
    (sampleSugarRequest "U1" "after" "evening").invalid (nodeRuntime 0) = false ∧
    ["U1", "Somchai", "Jaidee", "male", "1990-05-10"] ∈ emptySugarStore.users.drop 1 ∧
    postSugar (nodeRuntime 0) noSugarFaults sampleNow emptySugarStore
        (sampleSugarRequest "U1" "after" "evening") =
      ({ emptySugarStore with
          sugarRecords := [["U1", "120", "หลังอาหาร", "เย็น", "2025-09-15"]] },
        ⟨200, true, some "บันทึกค่าน้ำตaลสำเร็จ", false, false⟩) ∧
    getSugarRecords (nodeRuntime 0) none emptySugarStore ⟨some "U1", none, none⟩ =
      ⟨200, true, none, [], some ⟨1, 0, 0, 12, false, false, none, none⟩⟩ ∧
    getSugarRecords (nodeRuntime 0) none
        (postSugar (nodeRuntime 0) noSugarFaults sampleNow emptySugarStore
          (sampleSugarRequest "U1" "after" "evening")).1 ⟨some "U1", none, none⟩ =
      ⟨200, true, none, [], some ⟨1, 0, 0, 12, false, false, none, none⟩⟩ ∧
    postSugar (nodeRuntime 0) ⟨none, none, some "quota exceeded"⟩ sampleNow sampleStore
        (sampleSugarRequest "U1" "after" "evening") =
      (sampleStore, ⟨500, false, some "เกิดข้อผิดพลาดภายในเซิร์ฟเวอร์", false, false⟩) := by
  refine ⟨rfl, rfl, ?_⟩
  decide

/-- C6 (amended): for a valid submission (with every row-store call succeeding) whose
userId is registered in a data row of Users and whose key (userId, translated meal
timing, translated time of day, server-local date) matches no data row of SugarRecords,
on a sheet that has its header row and in which every row of the user has a date cell:
POST /sugar answers with success and status 200 and appends exactly one row; the full
listing of the user succeeds before and after the request, and the listing after is a
rearrangement of the listing before plus one record, of the user, carrying the
translated labels and the server-local date; the translation maps before, after,
morning and evening to their Thai labels and leaves every other value unchanged. -/
theorem postSugar_new_reading_listed (rt : Runtime) (now : ThaiDateTime) (store : Store)
    (body : SugarRequest)
    (hvalid : body.invalid rt = false)
    (hheader : store.sugarRecords ≠ [])
    (hreg : ∃ row ∈ store.users.drop 1, cell row 0 = body.resolvedUserId)
    (hnew : ¬ ∃ row ∈ store.sugarRecords.drop 1,
      jsString (cell row 0) = jsString body.resolvedUserId ∧
      jsString (cell row 2) = jsString (translateType body.typeRaw) ∧
      jsString (cell row 3) = jsString (translatePeriod body.periodRaw) ∧
      jsString (cell row 4) = now.date)
    (hdates : ∀ row ∈ sugarUserRows store.sugarRecords body.resolvedUserId, cell row 4 ≠ none) :
    (postSugar rt noSugarFaults now store body).2 =
      ⟨200, true, some "บันทึกค่าน้ำตaลสำเร็จ", false, false⟩ ∧
    (postSugar rt noSugarFaults now store body).1 =
      { store with sugarRecords := store.sugarRecords ++
          [sugarRow rt body.resolvedUserId (body.resolvedSugar rt) (translateType body.typeRaw)
            (translatePeriod body.periodRaw) now.date] } ∧
    ∃ before after : List SugarRecord,
      sugarAllRecords rt store.sugarRecords body.resolvedUserId = .ok before ∧
      sugarAllRecords rt (postSugar rt noSugarFaults now store body).1.sugarRecords
        body.resolvedUserId = .ok after ∧
      after.length = before.length + 1 ∧
      after.Perm (⟨body.resolvedUserId, some (rt.renderNumber (body.resolvedSugar rt)),
        translateType body.typeRaw, translatePeriod body.periodRaw, some now.date⟩ :: before) ∧
      translateType (some "before") = some "ก่อนอาหาร" ∧
      translateType (some "after") = some "หลังอาหาร" ∧
      translatePeriod (some "morning") = some "เช้า" ∧
      translatePeriod (some "evening") = some "เย็น" ∧
      (∀ t : String, t ≠ "before" → t ≠ "after" → translateType (some t) = some t) ∧
      (∀ t : String, t ≠ "morning" → t ≠ "evening" → translatePeriod (some t) = some t) := by
  have hr := isRegistered_of_data_row _ _ hreg
  have hd := sugarIsDuplicate_eq_false _ _ _ _ _ hnew
  have hpost : postSugar rt noSugarFaults now store body =
      ({ store with sugarRecords := store.sugarRecords ++
          [sugarRow rt body.resolvedUserId (body.resolvedSugar rt) (translateType body.typeRaw)
            (translatePeriod body.periodRaw) now.date] },
        ⟨200, true, some "บันทึกค่าน้ำตaลสำเร็จ", false, false⟩) := by
    simp [postSugar, postSugarTry, hvalid, hr, hd, fetchRows, appendRow, noSugarFaults]
  have hinv := hvalid
  simp only [SugarRequest.invalid, Bool.or_eq_false_iff, Bool.not_eq_false'] at hinv
  obtain ⟨⟨⟨⟨hu, -⟩, -⟩, ht⟩, hp⟩ := hinv
  have hu' := truthy_some _ hu
  have hcell : cell (sugarRow rt body.resolvedUserId (body.resolvedSugar rt)
      (translateType body.typeRaw) (translatePeriod body.periodRaw) now.date) 0
      = body.resolvedUserId := by
    simp [sugarRow, cell, hu']
  have hrows := sugarUserRows_append store.sugarRecords body.resolvedUserId _ hheader hcell
  have hdates' : ∀ row ∈ sugarUserRows (store.sugarRecords ++
      [sugarRow rt body.resolvedUserId (body.resolvedSugar rt) (translateType body.typeRaw)
        (translatePeriod body.periodRaw) now.date]) body.resolvedUserId, cell row 4 ≠ none := by
    intro row hrow
    rw [hrows, List.mem_append] at hrow
    rcases hrow with h | h
    · exact hdates row h
    · simp at h; subst h; simp [sugarRow, cell]
  refine ⟨by rw [hpost], by rw [hpost],
    jsSort (sugarCompare rt)
      ((sugarUserRows store.sugarRecords body.resolvedUserId).map toSugarRecord),
    jsSort (sugarCompare rt)
      ((sugarUserRows (store.sugarRecords ++
        [sugarRow rt body.resolvedUserId (body.resolvedSugar rt) (translateType body.typeRaw)
          (translatePeriod body.periodRaw) now.date]) body.resolvedUserId).map toSugarRecord),
    sugarAllRecords_ok rt _ _ hdates, ?_, ?_, ?_, by decide, by decide, by decide, by decide,
    fun t h1 h2 => by simp [translateType, h1, h2],
    fun t h1 h2 => by simp [translatePeriod, h1, h2]⟩
  · rw [hpost]; exact sugarAllRecords_ok rt _ _ hdates'
  · simp [jsSort, List.length_insertionSort, hrows]
  · refine (jsSort_perm _ _).trans ?_
    rw [hrows, List.map_append]
    refine List.perm_append_comm.trans ?_
    simp only [List.map_cons, List.map_nil, List.singleton_append]
    have hrec : toSugarRecord (sugarRow rt body.resolvedUserId (body.resolvedSugar rt)
        (translateType body.typeRaw) (translatePeriod body.periodRaw) now.date) =
        ⟨body.resolvedUserId, some (rt.renderNumber (body.resolvedSugar rt)),
          translateType body.typeRaw, translatePeriod body.periodRaw, some now.date⟩ := by
      simp [toSugarRecord, sugarRow, cell, hu', translateType_some _ ht,
        translatePeriod_some _ hp]
    rw [hrec]
    exact List.Perm.cons _ (jsSort_perm _ _).symm

/-- C6 (amended) at a concrete input: user U1 submits the evening after-meal reading of
the day. -/
theorem postSugar_new_reading_listed_witness :
    (sampleSugarRequest "U1" "after" "evening").invalid (nodeRuntime 0) = false ∧
    (postSugar (nodeRuntime 0) noSugarFaults sampleNow sampleStore
      (sampleSugarRequest "U1" "after" "evening")).2 =
        ⟨200, true, some "บันทึกค่าน้ำตaลสำเร็จ", false, false⟩ ∧
    (postSugar (nodeRuntime 0) noSugarFaults sampleNow sampleStore
      (sampleSugarRequest "U1" "after" "evening")).1 =
        { sampleStore with sugarRecords := sampleSugarRecords ++
            [["U1", "120", "หลังอาหาร", "เย็น", "2025-09-15"]] } :=
  ⟨by decide,
    (postSugar_new_reading_listed (nodeRuntime 0) sampleNow sampleStore
      (sampleSugarRequest "U1" "after" "evening") (by decide) (by decide) (by decide)
      (by decide) (by decide)).1,
    (postSugar_new_reading_listed (nodeRuntime 0) sampleNow sampleStore
      (sampleSugarRequest "U1" "after" "evening") (by decide) (by decide) (by decide)
      (by decide) (by decide)).2.1⟩

/-! ## Theorems: pagination of GET /sugar/records -/

theorem ceilDiv_eq_ceil (a b : Int) (hb : 0 < b) : ceilDiv a b = ⌈(a : ℚ) / (b : ℚ)⌉ := by
  unfold ceilDiv
  rw [Int.fdiv_eq_ediv _ hb.le]
  obtain ⟨d, rfl⟩ : ∃ d : ℕ, b = d := ⟨b.toNat, (Int.toNat_of_nonneg hb.le).symm⟩
  have h := Rat.floor_intCast_div_natCast (-a) d
  rw [← h]
  push_cast
  rw [neg_div, Int.floor_neg, neg_neg]

theorem jsSlice_length_page {α : Type} (l : List α) (start limit : Int) (hs : 0 ≤ start)
    (hl : 1 ≤ limit) :
    ((jsSlice l start (start + limit)).length : Int) =
      min limit (max 0 ((l.length : Int) - start)) := by
  unfold jsSlice clampIndex
  simp only [List.length_take, List.length_drop]
  have h1 : ¬ start < 0 := by omega
  have h2 : ¬ start + limit < 0 := by omega
  simp only [h1, h2, if_false]
  omega

/-- The pagination of the sugar listing where the sort does not throw: for a listing
request with a userId, a successful fetch, and every row of the
user carrying a date cell, with page number `p ≥ 1` and page size `L ≥ 1` and `n` the
number of the user's records: the response succeeds, `totalPages` is the ceiling of
`n / L`, `totalRecords` is `n`, the page holds `min L (max 0 (n - (p - 1) * L))`
records, `hasNext` holds exactly when `p < totalPages` and `hasPrev` exactly when
`p > 1`; with `n = 25` and `L = 12`, `totalPages` is 3, page 1 has 12 records with
`hasNext` and without `hasPrev`, and page 3 has 1 record without `hasNext` and with
`hasPrev`. -/
theorem getSugarRecords_pagination (rt : Runtime) (store : Store) (query : ListingQuery)
    (p L : Int)
    (huser : truthy query.userId = true)
    (hdates : ∀ row ∈ sugarUserRows store.sugarRecords query.userId, cell row 4 ≠ none)
    (hpage : parseIntOr rt query.page 1 = p) (hlimit : parseIntOr rt query.limit 12 = L)
    (hp : 1 ≤ p) (hL : 1 ≤ L) :
    ∃ pagination : Pagination,
      (getSugarRecords rt none store query).success = true ∧
      (getSugarRecords rt none store query).pagination = some pagination ∧
      pagination.totalPages =
        ⌈(((sugarUserRows store.sugarRecords query.userId).length : Int) : ℚ) / (L : ℚ)⌉ ∧
      pagination.totalRecords = (sugarUserRows store.sugarRecords query.userId).length ∧
      (((getSugarRecords rt none store query).records.length : Int) =
        min L (max 0 (((sugarUserRows store.sugarRecords query.userId).length : Int)
          - (p - 1) * L))) ∧
      (pagination.hasNext = true ↔ p < pagination.totalPages) ∧
      (pagination.hasPrev = true ↔ p > 1) ∧
      ((sugarUserRows store.sugarRecords query.userId).length = 25 → L = 12 →
        pagination.totalPages = 3 ∧
        (p = 1 → (getSugarRecords rt none store query).records.length = 12 ∧
          pagination.hasNext = true ∧ pagination.hasPrev = false) ∧
        (p = 3 → (getSugarRecords rt none store query).records.length = 1 ∧
          pagination.hasNext = false ∧ pagination.hasPrev = true)) := by
  have hall := sugarAllRecords_ok rt store.sugarRecords query.userId hdates
  have hlen : (jsSort (sugarCompare rt)
      ((sugarUserRows store.sugarRecords query.userId).map toSugarRecord)).length =
      (sugarUserRows store.sugarRecords query.userId).length := by
    simp [jsSort, List.length_insertionSort]
  have hresp : getSugarRecords rt none store query =
      ⟨200, true, none,
        (sugarPaginate (jsSort (sugarCompare rt)
          ((sugarUserRows store.sugarRecords query.userId).map toSugarRecord)) p L).1,
        some (sugarPaginate (jsSort (sugarCompare rt)
          ((sugarUserRows store.sugarRecords query.userId).map toSugarRecord)) p L).2⟩ := by
    simp [getSugarRecords, huser, fetchRows, hall, hpage, hlimit]
  rw [hresp]
  have hstart : 0 ≤ (p - 1) * L := mul_nonneg (by omega) (by omega)
  have hcount := jsSlice_length_page (jsSort (sugarCompare rt)
      ((sugarUserRows store.sugarRecords query.userId).map toSugarRecord)) ((p - 1) * L) L
      hstart hL
  rw [hlen] at hcount
  refine ⟨_, rfl, rfl, ?_, ?_, ?_, ?_, ?_, ?_⟩
  · simp only [sugarPaginate, hlen]
    exact ceilDiv_eq_ceil _ _ (by omega)
  · simp only [sugarPaginate, hlen]
  · simpa only [sugarPaginate] using hcount
  · simp [sugarPaginate]
  · simp [sugarPaginate]
  · intro hn hL12
    subst hL12
    simp only [sugarPaginate, hlen, hn] at hcount ⊢
    refine ⟨by decide, ?_, ?_⟩
    · intro hp1
      subst hp1
      refine ⟨?_, by decide, by decide⟩
      have : ((jsSlice (jsSort (sugarCompare rt)
        ((sugarUserRows store.sugarRecords query.userId).map toSugarRecord))
        ((1 - 1) * 12) ((1 - 1) * 12 + 12)).length : Int) = 12 := by
        rw [hcount]; decide
      exact_mod_cast this
    · intro hp3
      subst hp3
      refine ⟨?_, by decide, by decide⟩
      have : ((jsSlice (jsSort (sugarCompare rt)
        ((sugarUserRows store.sugarRecords query.userId).map toSugarRecord))
        ((3 - 1) * 12) ((3 - 1) * 12 + 12)).length : Int) = 1 := by
        rw [hcount]; decide
      exact_mod_cast this

/-- The pagination at a concrete input: the second page of size 1 of the three records
of U1. -/
theorem getSugarRecords_pagination_witness :
    ∃ pagination : Pagination,
      (getSugarRecords (nodeRuntime 0) none sampleChartStore
        ⟨some "U1", some "2", some "1"⟩).pagination = some pagination ∧
      pagination.totalRecords = 3 ∧ pagination.hasPrev = true :=
  let ⟨pagination, _, hpage, _, htotal, _, _, hprev, _⟩ :=
    getSugarRecords_pagination (nodeRuntime 0) sampleChartStore
      ⟨some "U1", some "2", some "1"⟩ 2 1 (by decide) (by decide) (by decide) (by decide)
      (by decide) (by decide)
  ⟨pagination, hpage, by rw [htotal]; decide, hprev.2 (by decide)⟩

/-- C7 (code defect): user U1 has two records, one of them in a row that ends before its
date cell.  The listing of page 1 with page size 12 answers with status 500, the message
of the `TypeError` the sort comparator throws, no records and no pagination, where
`totalRecords` is to be 2 and `totalPages` 1.  With that row alone the listing succeeds
(a single record is never compared), and the appointment listing, which replaces a
missing cell by the empty text before it sorts, lists both rows of a sheet of the same
shape. -/
theorem getSugarRecords_dateless_row_fails :
    sugarUserRows datelessStore.sugarRecords (some "U1") =
      [["U1", "110", "ก่อนอาหาร", "เช้า", "14/9/2025"], ["U1", "150", "หลังอาหาร", "เย็น"]] ∧
    getSugarRecords (nodeRuntime 0) none datelessStore ⟨some "U1", some "1", some "12"⟩ =
      ⟨500, false, some "Cannot read properties of undefined (reading 'split')", [], none⟩ ∧
    getSugarRecords (nodeRuntime 0) none
        { datelessStore with sugarRecords := datelessRecords.eraseIdx 1 }
        ⟨some "U1", some "1", some "12"⟩ =
      ⟨200, true, none, [⟨some "U1", some "150", some "หลังอาหาร", some "เย็น", none⟩],
        some ⟨1, 1, 1, 12, false, false, none, none⟩⟩ ∧
    getAppointmentRecords (nodeRuntime 0) none datelessStore
        ⟨some "U1", some "1", some "12"⟩ =
      ⟨200, true, none, [⟨"2025-09-16", "14:30", ""⟩, ⟨"", "", ""⟩],
        some ⟨1, 1, 2, 12, false, false, none, none⟩⟩ := by
  decide

/-! ## Theorems: order of GET /sugar/records -/

theorem orderedInsert_congr {α : Type} (r s : α → α → Prop) [DecidableRel r] [DecidableRel s]
    (a : α) (l : List α) (h : ∀ b ∈ l, r a b ↔ s a b) :
    l.orderedInsert r a = l.orderedInsert s a := by
  induction l with
  | nil => rfl
  | cons b l ih =>
    have hb := h b (by simp)
    have hl := ih (fun c hc => h c (by simp [hc]))
    simp only [List.orderedInsert]
    by_cases hr : r a b
    · rw [if_pos hr, if_pos (hb.1 hr)]
    · rw [if_neg hr, if_neg (fun hs => hr (hb.2 hs)), hl]

theorem insertionSort_congr {α : Type} (r s : α → α → Prop) [DecidableRel r] [DecidableRel s]
    (l : List α) (h : ∀ a ∈ l, ∀ b ∈ l, r a b ↔ s a b) :
    l.insertionSort r = l.insertionSort s := by
  induction l with
  | nil => rfl
  | cons a l ih =>
    simp only [List.insertionSort]
    rw [ih (fun x hx y hy => h x (by simp [hx]) y (by simp [hy]))]
    apply orderedInsert_congr
    intro b hb
    rw [List.mem_insertionSort] at hb
    exact h a (by simp) b (by simp [hb])

theorem filter_orderedInsert_key {α : Type} (key : α → Int) (x : α) (l : List α) (c : Int) :
    (l.orderedInsert (fun a b => key b ≤ key a) x).filter (fun r => key r = c) =
      (x :: l).filter (fun r => key r = c) := by
  induction l with
  | nil => rfl
  | cons b l ih =>
    simp only [List.orderedInsert]
    by_cases hle : key b ≤ key x
    · rw [if_pos hle]
    · rw [if_neg hle]
      have hne : key b ≠ key x := by omega
      rw [List.filter_cons, ih]
      by_cases hx : key x = c
      · have hb : ¬ key b = c := by omega
        simp [List.filter_cons, hx, hb]
      · simp [List.filter_cons, hx]

theorem filter_insertionSort_key {α : Type} (key : α → Int) (l : List α) (c : Int) :
    (l.insertionSort (fun a b => key b ≤ key a)).filter (fun r => key r = c) =
      l.filter (fun r => key r = c) := by
  induction l with
  | nil => rfl
  | cons a l ih =>
    simp only [List.insertionSort]
    rw [filter_orderedInsert_key, List.filter_cons, List.filter_cons, ih]

theorem sorted_insertionSort_key {α : Type} (key : α → Int) (l : List α) :
    (l.insertionSort (fun a b => key b ≤ key a)).Sorted (fun a b => key b ≤ key a) := by
  haveI : IsTotal α (fun a b => key b ≤ key a) := ⟨fun a b => le_total _ _⟩
  haveI : IsTrans α (fun a b => key b ≤ key a) := ⟨fun a b c hab hbc => le_trans hbc hab⟩
  exact List.sorted_insertionSort _ l

theorem splitChars_not_mem (sep : Char) (a : List Char) (h : sep ∉ a) :
    splitChars sep a = [a] := by
  induction a with
  | nil => rfl
  | cons c cs ih =>
    have hc : c ≠ sep := fun e => h (by simp [e])
    have hcs : sep ∉ cs := fun e => h (by simp [e])
    simp [splitChars, hc, ih hcs]

theorem splitChars_append (sep : Char) (a b : List Char) (h : sep ∉ a) :
    splitChars sep (a ++ sep :: b) = a :: splitChars sep b := by
  induction a with
  | nil => simp [splitChars]
  | cons c cs ih =>
    have hc : c ≠ sep := fun e => h (by simp [e])
    have hcs : sep ∉ cs := fun e => h (by simp [e])
    simp [splitChars, hc, ih hcs]

theorem natOfDigits_some (cs : List Char) (n : Nat) (h : natOfDigits cs = some n) :
    cs ≠ [] ∧ ∀ c ∈ cs, c.isDigit = true := by
  unfold natOfDigits at h
  split at h
  · rename_i hc
    exact ⟨hc.1, by simpa using hc.2⟩
  · cases h

theorem not_mem_of_natOfDigits (cs : List Char) (n : Nat) (sep : Char)
    (hsep : sep.isDigit = false) (h : natOfDigits cs = some n) : sep ∉ cs := by
  intro hmem
  have := (natOfDigits_some cs n h).2 sep hmem
  rw [hsep] at this
  cases this

/-- What `calendarDay` reads from a date string it accepts. -/
theorem calendarDay_some (date : String) (day : Int) (h : calendarDay date = some day) :
    ∃ (ds ms ys : List Char) (d m y : Nat),
      splitChars '/' date.data = [ds, ms, ys] ∧
      natOfDigits ds = some d ∧ natOfDigits ms = some m ∧ natOfDigits ys = some y ∧
      ys.length = 4 ∧ 1000 ≤ y ∧ 1 ≤ m ∧ m ≤ 12 ∧ 1 ≤ d ∧ d ≤ daysInMonth y m ∧
      day = daysBeforeYear y + daysBeforeMonth (isLeapYear y) m + ((d : Int) - 1) := by
  unfold calendarDay at h
  split at h
  · rename_i ds ms ys hsplit
    split at h
    · rename_i d m y hd hm hy
      split at h
      · rename_i hc
        injection h with h
        exact ⟨ds, ms, ys, d, m, y, hsplit, hd, hm, hy, hc.2.2.1, hc.2.2.2.1, hc.2.2.2.2.1,
          hc.2.2.2.2.2.1, hc.2.2.2.2.2.2.1, hc.2.2.2.2.2.2.2, h.symm⟩
      · cases h
    · cases h
  · cases h

theorem daysInMonth_le (y : Int) (m : Nat) : daysInMonth y m ≤ 31 := by
  unfold daysInMonth
  split_ifs <;> omega

theorem v8DateParse_rebuildDate (tz : Int) (date : String) (day : Int)
    (h : calendarDay date = some day) :
    v8DateParse tz (rebuildDate date) =
      some (day * 86400000 - (if isPadded date then 0 else tz * 60000)) := by
  obtain ⟨ds, ms, ys, d, m, y, hsplit, hd, hm, hy, hylen, hy1000, hm1, hm12, hd1, hdmax, rfl⟩ :=
    calendarDay_some date day h
  have hdata : (rebuildDate date).data = ys ++ '-' :: (ms ++ '-' :: ds) := by
    simp [rebuildDate, jsSplit, hsplit, jsJoin, String.data_append]
  have hsplit2 : splitChars '-' (ys ++ '-' :: (ms ++ '-' :: ds)) = [ys, ms, ds] := by
    rw [splitChars_append _ _ _ (not_mem_of_natOfDigits ys y '-' (by decide) hy),
      splitChars_append _ _ _ (not_mem_of_natOfDigits ms m '-' (by decide) hm),
      splitChars_not_mem _ _ (not_mem_of_natOfDigits ds d '-' (by decide) hd)]
  have hd31 : d ≤ 31 := le_trans hdmax (daysInMonth_le y m)
  unfold v8DateParse
  rw [hdata, hsplit2]
  simp only [hy, hm, hd]
  by_cases hpad : ds.length = 2 ∧ ms.length = 2
  · have hp : isPadded date = true := by simp [isPadded, hsplit, hpad.1, hpad.2]
    rw [if_pos ⟨hylen, hpad.2, hpad.1, hm1, hm12, hd1, hd31⟩]
    simp [hp, utcMidnight]
  · have hp : isPadded date = false := by
      simp only [isPadded, hsplit]
      simpa using hpad
    have h1 : ¬ (ys.length = 4 ∧ ms.length = 2 ∧ ds.length = 2 ∧ 1 ≤ m ∧ m ≤ 12 ∧
        1 ≤ d ∧ d ≤ 31) := fun hc => hpad ⟨hc.2.2.1, hc.2.1⟩
    have h2 : ¬ (1 ≤ y ∧ y ≤ 31) := by omega
    have hly : legacyYear y = y := by
      unfold legacyYear
      rw [if_neg (by omega), if_neg (by omega)]
    rw [if_neg h1, if_neg h2, if_pos ⟨hm1, hm12, hd1, hd31⟩, hly]
    simp [hp, utcMidnight]

theorem sugarDateKey_eq (rt : Runtime) (tz : Int) (hrt : rt.parseDate = v8DateParse tz)
    (r : SugarRecord) (hr : ∃ s, r.date = some s ∧ (calendarDay s).isSome = true) :
    sugarDateKey rt r = some (recordInstant tz r) := by
  obtain ⟨s, hs, hday⟩ := hr
  obtain ⟨day, hday⟩ := Option.isSome_iff_exists.1 hday
  simp [sugarDateKey, hs, hrt, v8DateParse_rebuildDate tz s day hday, recordInstant, recordDay,
    recordPadded, hday]

theorem jsSort_sugarCompare_eq (rt : Runtime) (tz : Int) (hrt : rt.parseDate = v8DateParse tz)
    (records : List SugarRecord)
    (hday : ∀ r ∈ records, ∃ s, r.date = some s ∧ (calendarDay s).isSome = true) :
    jsSort (sugarCompare rt) records =
      records.insertionSort (fun a b => recordInstant tz b ≤ recordInstant tz a) := by
  unfold jsSort
  apply insertionSort_congr
  intro a ha b hb
  simp only [sugarCompare, sugarDateKey_eq rt tz hrt a (hday a ha),
    sugarDateKey_eq rt tz hrt b (hday b hb), subtractDates, comparatorPositive]
  simp

/-- The order of the sugar listing on records whose dates denote calendar days, in a
Node.js process whose local time is `tz` minutes ahead of UTC (less than a day):
the listing is a rearrangement of the records in descending order of calendar day; and
when the process is on UTC, or all dates have the same form, records of the same day keep
their input order. -/
theorem jsSort_sugarCompare_calendar (rt : Runtime) (tz : Int)
    (hrt : rt.parseDate = v8DateParse tz) (htz : -1440 < tz ∧ tz < 1440)
    (records : List SugarRecord)
    (hday : ∀ r ∈ records, ∃ s, r.date = some s ∧ (calendarDay s).isSome = true) :
    (jsSort (sugarCompare rt) records).Perm records ∧
    (jsSort (sugarCompare rt) records).Pairwise (fun a b => recordDay b ≤ recordDay a) ∧
    ((tz = 0 ∨ ∀ a ∈ records, ∀ b ∈ records, recordPadded a = recordPadded b) →
      ∀ day : Int, (jsSort (sugarCompare rt) records).filter (fun r => recordDay r = day) =
        records.filter (fun r => recordDay r = day)) := by
  refine ⟨jsSort_perm _ _, ?_, ?_⟩
  · rw [jsSort_sugarCompare_eq rt tz hrt records hday]
    refine (sorted_insertionSort_key (recordInstant tz) records).imp ?_
    intro a b hab
    unfold recordInstant at hab
    split_ifs at hab <;> omega
  · intro hform day
    have hmem : ∀ r, r ∈ jsSort (sugarCompare rt) records ↔ r ∈ records :=
      fun r => (jsSort_perm (sugarCompare rt) records).mem_iff
    rw [jsSort_sugarCompare_eq rt tz hrt records hday] at hmem ⊢
    rcases hform with h0 | hsame
    · subst h0
      have hkey : ∀ r : SugarRecord, (recordDay r = day) = (recordInstant 0 r = day * 86400000) := by
        intro r
        unfold recordInstant
        apply propext
        split_ifs <;> constructor <;> intro h <;> omega
      simp only [hkey]
      exact filter_insertionSort_key (recordInstant 0) records (day * 86400000)
    · cases records with
      | nil => rfl
      | cons r0 rest =>
        have hpad : ∀ r ∈ r0 :: rest, recordPadded r = recordPadded r0 :=
          fun r hr => hsame r hr r0 (by simp)
        have hkey : ∀ r ∈ r0 :: rest, decide (recordDay r = day) =
            decide (recordInstant tz r = day * 86400000 -
              (if recordPadded r0 then 0 else tz * 60000)) := by
          intro r hr
          unfold recordInstant
          rw [hpad r hr]
          apply decide_eq_decide.2
          constructor <;> intro h <;> omega
        rw [List.filter_congr (fun r hr => hkey r ((hmem r).1 hr)), List.filter_congr hkey]
        exact filter_insertionSort_key (recordInstant tz) (r0 :: rest) _

/-- The order theorem at a concrete input: the records dated 1, 15 and 5 September 2025
in a process on Bangkok time. -/
theorem jsSort_sugarCompare_calendar_witness :
    (jsSort (sugarCompare (nodeRuntime 420))
      ((sugarUserRows threeDatesRecords (some "U1")).map toSugarRecord)).Pairwise
        (fun a b => recordDay b ≤ recordDay a) :=
  (jsSort_sugarCompare_calendar (nodeRuntime 420) 420 rfl (by decide)
    ((sugarUserRows threeDatesRecords (some "U1")).map toSugarRecord) (by decide)).2.1

/-- C8 (code defect): in a process whose local time is seven hours ahead of UTC
(Asia/Bangkok), two records of the same calendar date, 5 September 2025, the first
written 5/9/2025 and the second 05/09/2025, are listed in the opposite order: the
padded form is parsed as midnight UTC and the unpadded form as local midnight, seven
hours earlier.  In a process on UTC the same two records keep their order, and the
records dated 1/9/2025, 15/9/2025, 5/9/2025 are listed as 15/9, 5/9, 1/9 in both
processes. -/
theorem getSugarRecords_mixed_padding_reorders :
    listedDates (getSugarRecords (nodeRuntime 420) none
      { sampleStore with sugarRecords := mixedPaddingRecords } ⟨some "U1", none, none⟩) =
      [some "05/09/2025", some "5/9/2025"] ∧
    listedDates (getSugarRecords (nodeRuntime 0) none
      { sampleStore with sugarRecords := mixedPaddingRecords } ⟨some "U1", none, none⟩) =
      [some "5/9/2025", some "05/09/2025"] ∧
    listedDates (getSugarRecords (nodeRuntime 420) none
      { sampleStore with sugarRecords := threeDatesRecords } ⟨some "U1", none, none⟩) =
      [some "15/9/2025", some "5/9/2025", some "1/9/2025"] ∧
    listedDates (getSugarRecords (nodeRuntime 0) none
      { sampleStore with sugarRecords := threeDatesRecords } ⟨some "U1", none, none⟩) =
      [some "15/9/2025", some "5/9/2025", some "1/9/2025"] := by
  decide

/-! ## Theorems: weekly chart -/

theorem mem_uniqueFirst {α : Type} [DecidableEq α] (l : List α) (a : α) :
    a ∈ uniqueFirst l ↔ a ∈ l := by
  induction l with
  | nil => simp [uniqueFirst]
  | cons x xs ih =>
    simp only [uniqueFirst, List.mem_cons, List.mem_filter, ih]
    by_cases h : a = x <;> simp [h]

theorem nodup_uniqueFirst {α : Type} [DecidableEq α] (l : List α) : (uniqueFirst l).Nodup := by
  induction l with
  | nil => simp [uniqueFirst]
  | cons x xs ih =>
    simp only [uniqueFirst, List.nodup_cons, List.mem_filter]
    exact ⟨by simp, ih.filter _⟩

theorem length_uniqueFirst {α : Type} [DecidableEq α] (l : List α) :
    (uniqueFirst l).length = l.toFinset.card := by
  rw [← List.toFinset_card_of_nodup (nodup_uniqueFirst l)]
  congr 1
  ext a
  simp [mem_uniqueFirst]

theorem chartUserRows_eq (data : Table) (userId : Option String)
    (hheader : ∀ header ∈ data.head?, jsString (cell header 0) ≠ jsString userId) :
    chartUserRows data userId =
      (data.drop 1).filter (fun row => jsString (cell row 0) == jsString userId) := by
  cases data with
  | nil => rfl
  | cons header rest =>
    have h := hheader header (by simp)
    simp [chartUserRows, List.filter_cons, h]

theorem map_some_filterMap_id {α : Type} (l : List (Option α)) (h : ∀ x ∈ l, x ≠ none) :
    (l.filterMap id).map some = l := by
  induction l with
  | nil => rfl
  | cons x xs ih =>
    have hx := h x (by simp)
    have hxs := ih (fun y hy => h y (by simp [hy]))
    cases x with
    | none => exact absurd rfl hx
    | some a => simp [hxs]

theorem filter_none_eq_nil {α : Type} [DecidableEq α] (l : List (Option α)) (h : ∀ x ∈ l, x ≠ none) :
    l.filter (fun d => d == none) = [] := by
  rw [List.filter_eq_nil_iff]
  intro x hx
  simpa using h x hx

theorem clampIndex_neg7 (len : Nat) : clampIndex len (-7) = len - 7 := by
  unfold clampIndex
  simp
  omega

theorem findReading_eq_none (userRecords : List Row) (d mealLabel p : String) :
    findReading userRecords d mealLabel p = none ↔
      ¬ ∃ r ∈ userRecords, cell r 4 = some d ∧ cell r 3 = some p ∧ cell r 2 = some mealLabel := by
  unfold findReading
  rw [List.find?_eq_none]
  constructor
  · rintro h ⟨r, hr, h4, h3, h2⟩
    exact h r hr (by simp [h4, h3, h2])
  · intro h r hr hmatch
    simp at hmatch
    exact h ⟨r, hr, hmatch.1.1, hmatch.2, hmatch.1.2⟩

theorem chartValue_eq_null (rt : Runtime) (record : Option Row) :
    chartValue rt record = .null ↔ record = none := by
  cases record with
  | none => simp [chartValue]
  | some r =>
    simp only [chartValue]
    constructor
    · intro h
      split at h
      · cases h
      · split at h <;> cases h
    · intro h
      cases h

/-- The entry written for a looked-up reading is `null` exactly when there is no reading
or `parseInt` reads no number from its value cell. -/
theorem toJson_chartValue_eq_null (rt : Runtime) (record : Option Row) :
    (chartValue rt record).toJson = .null ↔
      record = none ∨ ∃ r, record = some r ∧ (cell r 1).bind rt.parseInt = none := by
  cases record with
  | none => simp [chartValue, ChartValue.toJson]
  | some r =>
    simp only [chartValue]
    cases h1 : cell r 1 with
    | none => simp [ChartValue.toJson, h1]
    | some s =>
      cases h2 : rt.parseInt s with
      | none => simp [ChartValue.toJson, h1, h2]
      | some n => simp [ChartValue.toJson, h1, h2]

/-- The entry written for a looked-up reading is the number `n` exactly when there is a
reading and `parseInt` reads `n` from its value cell. -/
theorem toJson_chartValue_eq_int (rt : Runtime) (record : Option Row) (n : Int) :
    (chartValue rt record).toJson = .int n ↔
      ∃ r, record = some r ∧ (cell r 1).bind rt.parseInt = some n := by
  cases record with
  | none => simp [chartValue, ChartValue.toJson]
  | some r =>
    simp only [chartValue]
    cases h1 : cell r 1 with
    | none => simp [ChartValue.toJson, h1]
    | some s =>
      cases h2 : rt.parseInt s with
      | none => simp [ChartValue.toJson, h1, h2]
      | some m => simp [ChartValue.toJson, h1, h2]

/-- The lookup of the chart returns the first row, in sheet order, that carries the
date, the period and the meal label. -/
theorem findReading_eq_some (userRecords : List Row) (d mealLabel p : String) (r : Row) :
    findReading userRecords d mealLabel p = some r ↔
      (cell r 4 = some d ∧ cell r 3 = some p ∧ cell r 2 = some mealLabel) ∧
      ∃ earlier later, userRecords = earlier ++ r :: later ∧
        ∀ x ∈ earlier, ¬ (cell x 4 = some d ∧ cell x 3 = some p ∧ cell x 2 = some mealLabel) := by
  unfold findReading
  rw [List.find?_eq_some]
  constructor
  · rintro ⟨hr, earlier, later, hl, hx⟩
    simp at hr
    refine ⟨⟨hr.1.1, hr.2, hr.1.2⟩, earlier, later, hl, ?_⟩
    rintro x hmem ⟨h4, h3, h2⟩
    have := hx x hmem
    simp [h4, h3, h2] at this
  · rintro ⟨⟨h4, h3, h2⟩, earlier, later, hl, hx⟩
    refine ⟨by simp [h4, h3, h2], earlier, later, hl, ?_⟩
    intro x hmem
    have := hx x hmem
    simp only [Bool.not_eq_true', Bool.and_eq_false_iff, beq_eq_false_iff_ne, ne_eq]
    by_contra hc
    push_neg at hc
    exact this ⟨hc.1.1, hc.2, hc.1.2⟩

theorem any_none_map_some {α : Type} [DecidableEq α] (l : List α) :
    (l.map some).any (fun d => d == none) = false := by
  induction l with
  | nil => rfl
  | cons x xs ih => simp [ih]

theorem filterMap_id_map_some {α : Type} (l : List α) : (l.map some).filterMap id = l := by
  induction l with
  | nil => rfl
  | cons x xs ih => simp [ih]

/-- The weekly chart of a user whose rows all carry a date cell, on a sheet whose header
row is not a row of the user: the kept dates and the slots built from them. -/
theorem getSugarRange_weekly_core (rt : Runtime) (store : Store) (userId : Option String)
    (huser : truthy userId = true)
    (hheader : ∀ header ∈ store.sugarRecords.head?,
      jsString (cell header 0) ≠ jsString userId)
    (hdates : ∀ row ∈ store.sugarRecords.drop 1,
      jsString (cell row 0) = jsString userId → cell row 4 ≠ none) :
    ∃ kept : List String,
      kept.Nodup ∧
      kept.length = min (((store.sugarRecords.drop 1).filter
        (fun row => jsString (cell row 0) == jsString userId)).map
          (fun r => cell r 4)).toFinset.card 7 ∧
      (∀ d ∈ kept, ∃ r ∈ (store.sugarRecords.drop 1).filter
        (fun row => jsString (cell row 0) == jsString userId), cell r 4 = some d) ∧
      (getSugarRange rt none store "weekly" userId).success = true ∧
      (getSugarRange rt none store "weekly" userId).labels =
        kept.flatMap (fun d => [chartLabel d "เช้า", chartLabel d "เย็น"]) ∧
      List.Forall₂
        (fun (slot : String × String) (v : SeriesEntry) =>
          (v = SeriesEntry.null ↔
            (¬ ∃ r ∈ (store.sugarRecords.drop 1).filter
                (fun row => jsString (cell row 0) == jsString userId),
              cell r 4 = some slot.1 ∧ cell r 3 = some slot.2 ∧ cell r 2 = some "ก่อนอาหาร") ∨
            ∃ r, findReading ((store.sugarRecords.drop 1).filter
                (fun row => jsString (cell row 0) == jsString userId))
                slot.1 "ก่อนอาหาร" slot.2 = some r ∧ (cell r 1).bind rt.parseInt = none) ∧
          ∀ n : Int, v = SeriesEntry.int n ↔
            ∃ r, findReading ((store.sugarRecords.drop 1).filter
                (fun row => jsString (cell row 0) == jsString userId))
                slot.1 "ก่อนอาหาร" slot.2 = some r ∧ (cell r 1).bind rt.parseInt = some n)
        (kept.flatMap (fun d => [(d, "เช้า"), (d, "เย็น")]))
        (getSugarRange rt none store "weekly" userId).beforeMeal ∧
      List.Forall₂
        (fun (slot : String × String) (v : SeriesEntry) =>
          (v = SeriesEntry.null ↔
            (¬ ∃ r ∈ (store.sugarRecords.drop 1).filter
                (fun row => jsString (cell row 0) == jsString userId),
              cell r 4 = some slot.1 ∧ cell r 3 = some slot.2 ∧ cell r 2 = some "หลังอาหาร") ∨
            ∃ r, findReading ((store.sugarRecords.drop 1).filter
                (fun row => jsString (cell row 0) == jsString userId))
                slot.1 "หลังอาหาร" slot.2 = some r ∧ (cell r 1).bind rt.parseInt = none) ∧
          ∀ n : Int, v = SeriesEntry.int n ↔
            ∃ r, findReading ((store.sugarRecords.drop 1).filter
                (fun row => jsString (cell row 0) == jsString userId))
                slot.1 "หลังอาหาร" slot.2 = some r ∧ (cell r 1).bind rt.parseInt = some n)
        (kept.flatMap (fun d => [(d, "เช้า"), (d, "เย็น")]))
        (getSugarRange rt none store "weekly" userId).afterMeal := by
  have hrows := chartUserRows_eq store.sugarRecords userId hheader
  generalize hread : (store.sugarRecords.drop 1).filter
    (fun row => jsString (cell row 0) == jsString userId) = readings at hrows ⊢
  have hdates' : ∀ x ∈ uniqueFirst (readings.map (fun r => cell r 4)), x ≠ none := by
    intro x hx
    rw [mem_uniqueFirst, List.mem_map] at hx
    obtain ⟨r, hr, rfl⟩ := hx
    rw [← hread, List.mem_filter] at hr
    exact hdates r hr.1 (by simpa using hr.2)
  generalize huniq : uniqueFirst (readings.map (fun r => cell r 4)) = uniq at hdates'
  have hsome := map_some_filterMap_id uniq hdates'
  have hnone := filter_none_eq_nil uniq hdates'
  have hkept : last7Dates rt readings =
      ((jsSort (chartCompare rt) (uniq.filterMap id)).drop
        ((jsSort (chartCompare rt) (uniq.filterMap id)).length - 7)).map some := by
    simp [last7Dates, sortDates, huniq, hnone, jsSliceFrom, clampIndex_neg7, List.map_drop]
  have hnodup : (uniq.filterMap id).Nodup := by
    have h := nodup_uniqueFirst (readings.map (fun r => cell r 4))
    rw [huniq, ← hsome] at h
    exact h.of_map _
  have hlen : (uniq.filterMap id).length =
      (readings.map (fun r => cell r 4)).toFinset.card := by
    rw [← length_uniqueFirst, huniq]
    conv_rhs => rw [← hsome]
    simp
  refine ⟨(jsSort (chartCompare rt) (uniq.filterMap id)).drop
        ((jsSort (chartCompare rt) (uniq.filterMap id)).length - 7), ?_, ?_, ?_, ?_⟩
  · exact (((jsSort_perm _ _).nodup_iff).2 hnodup).sublist (List.drop_sublist _ _)
  · rw [List.length_drop, (jsSort_perm _ _).length_eq, hlen]
    omega
  · intro d hd
    have h1 : d ∈ uniq.filterMap id :=
      (jsSort_perm _ _).subset (List.mem_of_mem_drop hd)
    have h2 : some d ∈ uniq := by
      rw [← hsome]; exact List.mem_map_of_mem some h1
    rw [← huniq, mem_uniqueFirst, List.mem_map] at h2
    obtain ⟨r, hr, hcell⟩ := h2
    exact ⟨r, hr, hcell⟩
  · have hany : (last7Dates rt readings).any (fun d => d == none) = false := by
      rw [hkept]; exact any_none_map_some _
    have hfm : (last7Dates rt readings).filterMap id =
        (jsSort (chartCompare rt) (uniq.filterMap id)).drop
        ((jsSort (chartCompare rt) (uniq.filterMap id)).length - 7) := by
      rw [hkept]; exact filterMap_id_map_some _
    have hresp : getSugarRange rt none store "weekly" userId =
        ⟨true, none,
          (((jsSort (chartCompare rt) (uniq.filterMap id)).drop
            ((jsSort (chartCompare rt) (uniq.filterMap id)).length - 7)).flatMap
              (fun d => chartPeriods.map (fun p => (d, p)))).map
            (fun s => chartLabel s.1 s.2),
          (((jsSort (chartCompare rt) (uniq.filterMap id)).drop
            ((jsSort (chartCompare rt) (uniq.filterMap id)).length - 7)).flatMap
              (fun d => chartPeriods.map (fun p => (d, p)))).map
            (fun s => (chartValue rt (findReading readings s.1 "ก่อนอาหาร" s.2)).toJson),
          (((jsSort (chartCompare rt) (uniq.filterMap id)).drop
            ((jsSort (chartCompare rt) (uniq.filterMap id)).length - 7)).flatMap
              (fun d => chartPeriods.map (fun p => (d, p)))).map
            (fun s => (chartValue rt (findReading readings s.1 "หลังอาหาร" s.2)).toJson),
          some readings.length⟩ := by
      unfold getSugarRange
      simp only [huser, fetchRows, hrows, hany, hfm, Bool.not_true, Bool.false_eq_true,
        ↓reduceIte]
    rw [hresp]
    have hslots : ∀ l : List String, l.flatMap (fun d => chartPeriods.map (fun p => (d, p))) =
        l.flatMap (fun d => [(d, "เช้า"), (d, "เย็น")]) := fun _ => rfl
    simp only [hslots]
    refine ⟨trivial, ?_, ?_, ?_⟩
    · simp only [List.map_flatMap, List.map_cons, List.map_nil]
    · rw [List.forall₂_map_right_iff, List.forall₂_same]
      intro slot _
      refine ⟨?_, fun n => toJson_chartValue_eq_int rt _ n⟩
      rw [toJson_chartValue_eq_null, findReading_eq_none]
    · rw [List.forall₂_map_right_iff, List.forall₂_same]
      intro slot _
      refine ⟨?_, fun n => toJson_chartValue_eq_int rt _ n⟩
      rw [toJson_chartValue_eq_null, findReading_eq_none]

theorem length_flatMap_pair {α β : Type} (l : List α) (f g : α → β) :
    (l.flatMap (fun d => [f d, g d])).length = 2 * l.length := by
  induction l with
  | nil => rfl
  | cons x xs ih =>
    simp only [List.flatMap_cons, List.length_append, List.length_cons, List.length_nil, ih]
    omega

/-- C9 (counterexample): user U1 has one reading, a before-meal reading of the morning of
15/9/2025 whose value cell holds the text n/a.  The weekly chart has the two slots of
that date, and the `beforeMeal` entry of the morning slot is `null` although the user
has a reading with the date, the period and the label of the slot: `parseInt` reads
`NaN` from the cell, which the JSON body carries as `null`. -/
theorem getSugarRange_unreadable_value_is_null :
    getSugarRange (nodeRuntime 0) none unreadableValueStore "weekly" (some "U1") =
      ⟨true, none, ["15/9-เช้า", "15/9-เย็น"], [.null, .null], [.null, .null], some 1⟩ ∧
    ["U1", "n/a", "ก่อนอาหาร", "เช้า", "15/9/2025"] ∈
      (unreadableValueStore.sugarRecords.drop 1).filter
        (fun row => jsString (cell row 0) == jsString (some "U1")) ∧
    chartValue (nodeRuntime 0) (some ["U1", "n/a", "ก่อนอาหาร", "เช้า", "15/9/2025"]) = .nan := by
  decide

/-- C9 (amended): for a user (a non-empty userId that is not the first cell of the header
row) whose readings, the data rows of SugarRecords carrying the userId, all have a date
cell and lie on `k` distinct dates, the weekly chart succeeds with a list `kept` of
`min k 7` distinct dates of the user's readings; `labels`, `beforeMeal` and `afterMeal`
each have `2 * min k 7` entries (6 when `k = 3`), two slots per kept date, morning then
evening; the `beforeMeal` (resp. `afterMeal`) entry of a slot is `null` exactly when the
user has no reading with the date and period of the slot and the before-meal (resp.
after-meal) label, or `parseInt` reads no number from the value cell of the first such
reading in sheet order; and the entry is the number `n` exactly when `parseInt` reads
`n` from the value cell of that first reading. -/
theorem getSugarRange_weekly_slots (rt : Runtime) (store : Store) (userId : Option String)
    (huser : truthy userId = true)
    (hheader : ∀ header ∈ store.sugarRecords.head?,
      jsString (cell header 0) ≠ jsString userId)
    (hdates : ∀ row ∈ store.sugarRecords.drop 1,
      jsString (cell row 0) = jsString userId → cell row 4 ≠ none) :
    ∃ kept : List String,
      kept.Nodup ∧
      kept.length = min (((store.sugarRecords.drop 1).filter
        (fun row => jsString (cell row 0) == jsString userId)).map
          (fun r => cell r 4)).toFinset.card 7 ∧
      (∀ d ∈ kept, ∃ r ∈ (store.sugarRecords.drop 1).filter
        (fun row => jsString (cell row 0) == jsString userId), cell r 4 = some d) ∧
      (getSugarRange rt none store "weekly" userId).success = true ∧
      (getSugarRange rt none store "weekly" userId).labels =
        kept.flatMap (fun d => [chartLabel d "เช้า", chartLabel d "เย็น"]) ∧
      List.Forall₂
        (fun (slot : String × String) (v : SeriesEntry) =>
          (v = SeriesEntry.null ↔
            (¬ ∃ r ∈ (store.sugarRecords.drop 1).filter
                (fun row => jsString (cell row 0) == jsString userId),
              cell r 4 = some slot.1 ∧ cell r 3 = some slot.2 ∧ cell r 2 = some "ก่อนอาหาร") ∨
            ∃ r, findReading ((store.sugarRecords.drop 1).filter
                (fun row => jsString (cell row 0) == jsString userId))
                slot.1 "ก่อนอาหาร" slot.2 = some r ∧ (cell r 1).bind rt.parseInt = none) ∧
          ∀ n : Int, v = SeriesEntry.int n ↔
            ∃ r, findReading ((store.sugarRecords.drop 1).filter
                (fun row => jsString (cell row 0) == jsString userId))
                slot.1 "ก่อนอาหาร" slot.2 = some r ∧ (cell r 1).bind rt.parseInt = some n)
        (kept.flatMap (fun d => [(d, "เช้า"), (d, "เย็น")]))
        (getSugarRange rt none store "weekly" userId).beforeMeal ∧
      List.Forall₂
        (fun (slot : String × String) (v : SeriesEntry) =>
          (v = SeriesEntry.null ↔
            (¬ ∃ r ∈ (store.sugarRecords.drop 1).filter
                (fun row => jsString (cell row 0) == jsString userId),
              cell r 4 = some slot.1 ∧ cell r 3 = some slot.2 ∧ cell r 2 = some "หลังอาหาร") ∨
            ∃ r, findReading ((store.sugarRecords.drop 1).filter
                (fun row => jsString (cell row 0) == jsString userId))
                slot.1 "หลังอาหาร" slot.2 = some r ∧ (cell r 1).bind rt.parseInt = none) ∧
          ∀ n : Int, v = SeriesEntry.int n ↔
            ∃ r, findReading ((store.sugarRecords.drop 1).filter
                (fun row => jsString (cell row 0) == jsString userId))
                slot.1 "หลังอาหาร" slot.2 = some r ∧ (cell r 1).bind rt.parseInt = some n)
        (kept.flatMap (fun d => [(d, "เช้า"), (d, "เย็น")]))
        (getSugarRange rt none store "weekly" userId).afterMeal ∧
      (getSugarRange rt none store "weekly" userId).labels.length =
        2 * min (((store.sugarRecords.drop 1).filter
          (fun row => jsString (cell row 0) == jsString userId)).map
            (fun r => cell r 4)).toFinset.card 7 ∧
      (getSugarRange rt none store "weekly" userId).beforeMeal.length =
        2 * min (((store.sugarRecords.drop 1).filter
          (fun row => jsString (cell row 0) == jsString userId)).map
            (fun r => cell r 4)).toFinset.card 7 ∧
      (getSugarRange rt none store "weekly" userId).afterMeal.length =
        2 * min (((store.sugarRecords.drop 1).filter
          (fun row => jsString (cell row 0) == jsString userId)).map
            (fun r => cell r 4)).toFinset.card 7 ∧
      ((((store.sugarRecords.drop 1).filter
          (fun row => jsString (cell row 0) == jsString userId)).map
            (fun r => cell r 4)).toFinset.card = 3 →
        (getSugarRange rt none store "weekly" userId).labels.length = 6 ∧
        (getSugarRange rt none store "weekly" userId).beforeMeal.length = 6 ∧
        (getSugarRange rt none store "weekly" userId).afterMeal.length = 6) := by
  obtain ⟨kept, hnodup, hlen, hmem, hsuccess, hlabels, hbefore, hafter⟩ :=
    getSugarRange_weekly_core rt store userId huser hheader hdates
  have h1 : (getSugarRange rt none store "weekly" userId).labels.length
      = 2 * kept.length := by
    rw [hlabels, length_flatMap_pair]
  have h2 : (getSugarRange rt none store "weekly" userId).beforeMeal.length
      = 2 * kept.length := by
    rw [← hbefore.length_eq, length_flatMap_pair]
  have h3 : (getSugarRange rt none store "weekly" userId).afterMeal.length
      = 2 * kept.length := by
    rw [← hafter.length_eq, length_flatMap_pair]
  rw [hlen] at h1 h2 h3
  refine ⟨kept, hnodup, hlen, hmem, hsuccess, hlabels, hbefore, hafter, h1, h2, h3, ?_⟩
  intro hk
  rw [hk] at h1 h2 h3
  exact ⟨h1, h2, h3⟩

/-- C9 (amended) at a concrete input: user U1 has readings on two dates, and the chart
has four slots. -/
theorem getSugarRange_weekly_slots_witness :
    truthy (some "U1") = true ∧
    (getSugarRange (nodeRuntime 0) none sampleChartStore "weekly" (some "U1")).labels.length =
      2 * min (((sampleChartStore.sugarRecords.drop 1).filter
        (fun row => jsString (cell row 0) == jsString (some "U1"))).map
          (fun r => cell r 4)).toFinset.card 7 :=
  let ⟨_, _, _, _, _, _, _, _, hlabels, _⟩ :=
    getSugarRange_weekly_slots (nodeRuntime 0) sampleChartStore (some "U1") (by decide)
      (by decide) (by decide)
  ⟨by decide, hlabels⟩

/-! ## Theorems: the reminder job -/

theorem sendReminderMessage_log (sender : Sender) (log : List PushCall)
    (userId : Option String) (appointment : Appointment) :
    (sendReminderMessage sender log userId appointment).2 =
      log ++ [⟨userId, reminderText appointment⟩] := by
  simp only [sendReminderMessage]
  split <;> rfl

theorem foldl_sendReminderMessage (sender : Sender) (appointments : List Appointment) :
    ∀ log : List PushCall,
      appointments.foldl
        (fun log appointment =>
          (sendReminderMessage sender log appointment.userId appointment).2) log =
      log ++ appointments.map (fun a => (⟨a.userId, reminderText a⟩ : PushCall)) := by
  induction appointments with
  | nil => intro log; simp
  | cons a rest ih =>
    intro log
    simp only [List.foldl_cons, List.map_cons]
    rw [ih, sendReminderMessage_log]
    simp

/-- C10: for every appointments sheet, every date string `tomorrowDateString` and every
behaviour of the message sender, success or failure of each push included, a run of
`sendDailyReminders` whose fetch succeeds attempts exactly one push per non-header row
whose date cell equals `tomorrowDateString`, in sheet order, addressed to the userId of
that row, and no other push; on the sheet with appointments of A and B tomorrow and of
C today the pushes go to A, then B. -/
theorem sendDailyReminders_dispatches (sender : Sender) (tomorrowDateString : String)
    (table : Table) :
    sendDailyReminders sender none tomorrowDateString table =
      ((table.drop 1).filter (fun row => cell row 1 == some tomorrowDateString)).map
        (fun row => (⟨cell row 0, reminderText (appointmentOfRow row)⟩ : PushCall)) ∧
    (sendDailyReminders sender none "2025-09-16" sampleReminderSheet).map
      (fun call => call.recipient) = [some "A", some "B"] := by
  have h : ∀ (tomorrow : String) (t : Table), sendDailyReminders sender none tomorrow t =
      ((t.drop 1).filter (fun row => cell row 1 == some tomorrow)).map
        (fun row => (⟨cell row 0, reminderText (appointmentOfRow row)⟩ : PushCall)) := by
    intro tomorrow t
    unfold sendDailyReminders
    simp only [getAppointmentsToRemind, fetchRows]
    split
    · rename_i h0
      rw [List.length_eq_zero] at h0
      rw [List.map_eq_nil_iff] at h0
      rw [h0]; rfl
    · rw [foldl_sendReminderMessage]
      simp [List.map_map, Function.comp, appointmentOfRow]
  refine ⟨h _ _, ?_⟩
  rw [h]
  decide

/-! ## Theorems: the clock -/

theorem daysBeforeYear_lt_succ (a : Int) : daysBeforeYear a < daysBeforeYear (a + 1) := by
  unfold daysBeforeYear
  have h : a + 1 - 1 = a := by ring
  rw [h]
  omega

theorem daysBeforeYear_lt (a b : Int) (h : a < b) : daysBeforeYear a < daysBeforeYear b := by
  rcases (by omega : b = a + 1 ∨ a + 2 ≤ b) with h1 | h2
  · subst h1
    exact daysBeforeYear_lt_succ a
  · unfold daysBeforeYear
    omega

theorem daysBeforeYear_le (a b : Int) (h : a ≤ b) : daysBeforeYear a ≤ daysBeforeYear b := by
  rcases (by omega : a = b ∨ a < b) with h1 | h2
  · subst h1; exact le_refl _
  · exact le_of_lt (daysBeforeYear_lt a b h2)

theorem yearOfDay_spec (n : Int) :
    daysBeforeYear (yearOfDay n) ≤ n ∧ n < daysBeforeYear (yearOfDay n + 1) := by
  unfold yearOfDay
  simp only
  generalize hc : 1970 + n * 400 / 146097 = c
  split_ifs with h1 h2
  · have h : c - 1 + 1 = c := by ring
    rw [h]
    refine ⟨?_, h1⟩
    unfold daysBeforeYear at *
    omega
  · refine ⟨h2, ?_⟩
    unfold daysBeforeYear at *
    omega
  · exact ⟨by omega, by omega⟩

theorem yearOfDay_unique (n y : Int) (h1 : daysBeforeYear y ≤ n)
    (h2 : n < daysBeforeYear (y + 1)) : yearOfDay n = y := by
  have h := yearOfDay_spec n
  generalize yearOfDay n = z at h
  rcases lt_trichotomy z y with hlt | heq | hgt
  · have := daysBeforeYear_le (z + 1) y (by omega)
    omega
  · exact heq
  · have := daysBeforeYear_le (y + 1) z (by omega)
    omega

theorem daysBeforeYear_succ (y : Int) :
    daysBeforeYear (y + 1) = daysBeforeYear y + (if isLeapYear y then 366 else 365) := by
  unfold daysBeforeYear isLeapYear
  have h : y + 1 - 1 = y := by ring
  rw [h]
  by_cases h4 : y % 4 = 0 <;> by_cases h100 : y % 100 = 0 <;> by_cases h400 : y % 400 = 0 <;>
    simp [h4, h100, h400] <;> omega

theorem monthOfYearDay_common (x : Int) :
    monthOfYearDay false x =
      if x < 31 then 1 else if x < 59 then 2 else if x < 90 then 3 else if x < 120 then 4
      else if x < 151 then 5 else if x < 181 then 6 else if x < 212 then 7
      else if x < 243 then 8 else if x < 273 then 9 else if x < 304 then 10
      else if x < 334 then 11 else 12 := rfl

theorem monthOfYearDay_leap (x : Int) :
    monthOfYearDay true x =
      if x < 31 then 1 else if x < 60 then 2 else if x < 91 then 3 else if x < 121 then 4
      else if x < 152 then 5 else if x < 182 then 6 else if x < 213 then 7
      else if x < 244 then 8 else if x < 274 then 9 else if x < 305 then 10
      else if x < 335 then 11 else 12 := rfl

theorem daysBeforeMonth_common (m : Nat) (hm1 : 1 ≤ m) (hm12 : m ≤ 12) :
    daysBeforeMonth false m =
      if m = 1 then 0 else if m = 2 then 31 else if m = 3 then 59 else if m = 4 then 90
      else if m = 5 then 120 else if m = 6 then 151 else if m = 7 then 181
      else if m = 8 then 212 else if m = 9 then 243 else if m = 10 then 273
      else if m = 11 then 304 else 334 := by
  interval_cases m <;> rfl

theorem daysBeforeMonth_leap (m : Nat) (hm1 : 1 ≤ m) (hm12 : m ≤ 12) :
    daysBeforeMonth true m =
      if m = 1 then 0 else if m = 2 then 31 else if m = 3 then 60 else if m = 4 then 91
      else if m = 5 then 121 else if m = 6 then 152 else if m = 7 then 182
      else if m = 8 then 213 else if m = 9 then 244 else if m = 10 then 274
      else if m = 11 then 305 else 335 := by
  interval_cases m <;> rfl

theorem monthOfYearDay_eq (leap : Bool) (m : Nat) (d : Int) (y : Int)
    (hleap : leap = isLeapYear y)
    (hm1 : 1 ≤ m) (hm12 : m ≤ 12) (hd1 : 1 ≤ d) (hd : d ≤ daysInMonth y m) :
    monthOfYearDay leap (daysBeforeMonth leap m + (d - 1)) = m ∧
      0 ≤ daysBeforeMonth leap m + (d - 1) ∧
      daysBeforeMonth leap m + (d - 1) < (if leap then 366 else 365) := by
  subst hleap
  unfold daysInMonth at hd
  cases hl : isLeapYear y
  · rw [monthOfYearDay_common, daysBeforeMonth_common m hm1 hm12]
    rw [hl] at hd
    interval_cases m <;> simp only [Nat.reduceEqDiff, ↓reduceIte, OfNat.ofNat_ne_one,
      false_or, or_false, Nat.cast_ofNat, OfNat.one_ne_ofNat, Bool.false_eq_true] at hd ⊢ <;>
      refine ⟨?_, by omega, by omega⟩ <;> simp (disch := omega) only [if_pos, if_neg]
  · rw [monthOfYearDay_leap, daysBeforeMonth_leap m hm1 hm12]
    rw [hl] at hd
    interval_cases m <;> simp only [Nat.reduceEqDiff, ↓reduceIte, OfNat.ofNat_ne_one,
      false_or, or_false, Nat.cast_ofNat, OfNat.one_ne_ofNat] at hd ⊢ <;>
      refine ⟨?_, by omega, by omega⟩ <;> simp (disch := omega) only [if_pos, if_neg]

theorem civilOfDay_roundtrip (y : Int) (m : Nat) (d : Int)
    (hm1 : 1 ≤ m) (hm12 : m ≤ 12) (hd1 : 1 ≤ d) (hd : d ≤ daysInMonth y m) :
    civilOfDay (daysBeforeYear y + daysBeforeMonth (isLeapYear y) m + (d - 1)) = ⟨y, m, d⟩ := by
  obtain ⟨hmonth, hnonneg, hlt⟩ :=
    monthOfYearDay_eq (isLeapYear y) m d y rfl hm1 hm12 hd1 hd
  have hyear : yearOfDay (daysBeforeYear y + daysBeforeMonth (isLeapYear y) m + (d - 1)) = y := by
    apply yearOfDay_unique
    · omega
    · rw [daysBeforeYear_succ]
      split_ifs at hlt ⊢ <;> omega
  unfold civilOfDay
  simp only [hyear]
  have h : daysBeforeYear y + daysBeforeMonth (isLeapYear y) m + (d - 1) - daysBeforeYear y =
      daysBeforeMonth (isLeapYear y) m + (d - 1) := by ring
  rw [h, hmonth]
  congr 1
  ring

/-- Read in a process on or east of UTC (less than a day ahead), midnight UTC of a
calendar day shows that same day through the local getters. -/
theorem localDate_utcMidnight (utcOffsetMinutes : Int) (y : Int) (m d : Nat)
    (hoff : 0 ≤ utcOffsetMinutes ∧ utcOffsetMinutes < 1440)
    (hm1 : 1 ≤ m) (hm12 : m ≤ 12) (hd1 : 1 ≤ d) (hd : d ≤ daysInMonth y m) :
    localDate utcOffsetMinutes (utcMidnight y m d) = ⟨y, m, d⟩ := by
  have hday : dayOfTime (utcMidnight y m d + utcOffsetMinutes * 60000) =
      daysBeforeYear y + daysBeforeMonth (isLeapYear y) m + (((d : Nat) : Int) - 1) := by
    unfold dayOfTime utcMidnight
    omega
  unfold localDate
  rw [hday]
  exact civilOfDay_roundtrip y m d hm1 hm12 (by omega) (by exact_mod_cast hd)

/-- In a process west of UTC the same instant shows the previous day: midnight UTC of
10 May 2000 is 9 May 2000 five hours west of UTC. -/
theorem localDate_west_of_utc :
    localDate (-300) (utcMidnight 2000 5 10) = ⟨2000, 5, 9⟩ := by
  decide

/-! ## Theorems: the date of the reminder job -/

/-- In a zone with a fixed offset `tomorrowDateString` is the UTC date of the instant
one day after `now`. -/
theorem tomorrowDateString_eq (utcOffsetMinutes now : Int) :
    tomorrowDateString utcOffsetMinutes now = isoDateString (dayOfTime (now + 86400000)) := by
  simp only [tomorrowDateString, dayOfTime]
  congr 1
  omega

/-- At every instant of the hour that starts at 06:00 on the Bangkok wall clock, in
every process zone with a fixed offset, `tomorrowDateString` is the current Bangkok
date, the date `getThaiDateTime` returns. -/
theorem tomorrowDateString_at_trigger (utcOffsetMinutes now : Int)
    (h : isDailyTriggerHour now) :
    tomorrowDateString utcOffsetMinutes now = (getThaiDateTime utcOffsetMinutes now).date := by
  rw [tomorrowDateString_eq]
  unfold getThaiDateTime isDailyTriggerHour dayOfTime at *
  simp only
  congr 1
  omega

/-- C11 (code defect): at the firing of 15 September 2025, 06:00 on the Bangkok wall
clock (2025-09-14T23:00:00Z), the string `tomorrowDateString` is 2025-09-15, in a
process on UTC and in a process on Bangkok time alike: it is the current Bangkok date,
the one `getThaiDateTime` returns, and not the day after, 2025-09-16. -/
theorem tomorrowDateString_is_today_at_trigger :
    isDailyTriggerHour sampleTriggerInstant ∧
    (getThaiDateTime 0 sampleTriggerInstant).date = "2025-09-15" ∧
    isoDateString (dayOfTime (sampleTriggerInstant + 7 * 3600000) + 1) = "2025-09-16" ∧
    tomorrowDateString 0 sampleTriggerInstant = "2025-09-15" ∧
    tomorrowDateString 420 sampleTriggerInstant = "2025-09-15" := by
  decide

/-- The age rule on the values the getters read: for a registration with every field
present, a userId that no row of Users
carries, a birthDay that `Date` parses, and successful row-store calls, the handler
appends the row of the user with the age `currentYear - birthYear - 1` when the current
(month, day) strictly precedes the birth (month, day) and `currentYear - birthYear`
otherwise, the years, months and days being those the local getters read from `today`
and `birthDate`; a birth (month, day) one day after the current one gives
`currentYear - birthYear - 1`; and in a process on or east of UTC the getters read from a
`birthDate` at midnight UTC of a calendar day exactly that year, month and day. -/
theorem postRegister_age (rt : Runtime) (utcOffsetMinutes now : Int) (users : Table)
    (body : RegisterRequest) (birthTime : Int)
    (hvalid : truthy body.userId = true ∧ truthy body.firstName = true ∧
      truthy body.lastName = true ∧ truthy body.gender = true ∧
      truthy body.birthDay = true)
    (hnew : registerIsDuplicate users body.userId = false)
    (hparse : rt.parseDate (jsString body.birthDay) = some birthTime) :
    postRegister rt utcOffsetMinutes now noRegisterFaults users body =
      (users ++ [[jsString body.userId, jsString body.firstName, jsString body.lastName,
        jsString body.gender, jsString body.birthDay,
        rt.renderNumber (.finite
          (if (localDate utcOffsetMinutes now).month <
                (localDate utcOffsetMinutes birthTime).month ∨
              ((localDate utcOffsetMinutes now).month =
                (localDate utcOffsetMinutes birthTime).month ∧
               (localDate utcOffsetMinutes now).date <
                (localDate utcOffsetMinutes birthTime).date)
           then (localDate utcOffsetMinutes now).year -
              (localDate utcOffsetMinutes birthTime).year - 1
           else (localDate utcOffsetMinutes now).year -
              (localDate utcOffsetMinutes birthTime).year) 0)]],
        ⟨200, true, none, false, false⟩) ∧
    (((localDate utcOffsetMinutes birthTime).month = (localDate utcOffsetMinutes now).month ∧
        (localDate utcOffsetMinutes birthTime).date =
          (localDate utcOffsetMinutes now).date + 1) →
      registrationAge rt utcOffsetMinutes now (jsString body.birthDay) =
        some ((localDate utcOffsetMinutes now).year -
          (localDate utcOffsetMinutes birthTime).year - 1)) ∧
    (∀ (y : Int) (m d : Nat), 0 ≤ utcOffsetMinutes → utcOffsetMinutes < 1440 →
      1 ≤ m → m ≤ 12 → 1 ≤ d → d ≤ daysInMonth y m → birthTime = utcMidnight y m d →
      localDate utcOffsetMinutes birthTime = ⟨y, m, d⟩) := by
  obtain ⟨h1, h2, h3, h4, h5⟩ := hvalid
  have hage : registrationAge rt utcOffsetMinutes now (jsString body.birthDay) =
      some (if (localDate utcOffsetMinutes now).month <
                (localDate utcOffsetMinutes birthTime).month ∨
              ((localDate utcOffsetMinutes now).month =
                (localDate utcOffsetMinutes birthTime).month ∧
               (localDate utcOffsetMinutes now).date <
                (localDate utcOffsetMinutes birthTime).date)
           then (localDate utcOffsetMinutes now).year -
              (localDate utcOffsetMinutes birthTime).year - 1
           else (localDate utcOffsetMinutes now).year -
              (localDate utcOffsetMinutes birthTime).year) := by
    simp only [registrationAge, hparse]
    by_cases hc : (localDate utcOffsetMinutes now).month <
                (localDate utcOffsetMinutes birthTime).month ∨
              ((localDate utcOffsetMinutes now).month =
                (localDate utcOffsetMinutes birthTime).month ∧
               (localDate utcOffsetMinutes now).date <
                (localDate utcOffsetMinutes birthTime).date)
    · rw [if_pos hc, if_pos (by omega)]
    · rw [if_neg hc, if_neg (by omega)]
  refine ⟨?_, ?_, ?_⟩
  · simp [postRegister, h1, h2, h3, h4, h5, hnew, fetchRows, appendRow, noRegisterFaults,
      registerRow, hage, ageNumber]
  · intro hnext
    rw [hage, if_pos (by omega)]
  · intro y m d h0 h1440 hm1 hm12 hd1 hd hb
    rw [hb]
    exact localDate_utcMidnight utcOffsetMinutes y m d ⟨h0, h1440⟩ hm1 hm12 hd1 hd

/-- The age rule at a concrete input: on 15 September 2025 in Bangkok a user born on
16 September 2000 is registered with age 24. -/
theorem postRegister_age_witness :
    (nodeRuntime 420).parseDate "2000-09-16" = some (utcMidnight 2000 9 16) ∧
    postRegister (nodeRuntime 420) 420 sampleTriggerInstant noRegisterFaults sampleUsers
        (sampleRegisterRequest "U7" "2000-09-16") =
      (sampleUsers ++ [["U7", "Malee", "Jaidee", "female", "2000-09-16", "24"]],
        ⟨200, true, none, false, false⟩) :=
  ⟨by decide,
    by
      have h := (postRegister_age (nodeRuntime 420) 420 sampleTriggerInstant sampleUsers
        (sampleRegisterRequest "U7" "2000-09-16") (utcMidnight 2000 9 16)
        (by decide) (by decide) (by decide)).1
      rw [h]
      decide⟩

/-- C12 (code defect): in a process five hours west of UTC, at noon of 15 September 2025,
the registration of a user born on 2000-09-16 stores the age 25.  The current
(month, day) is (9, 15) and strictly precedes the birth (month, day) (9, 16), so the
age is to be 2025 - 2000 - 1 = 24: the birthDay is parsed as midnight UTC, which the
local getters of that process read as 15 September 2000.  The same request at the same
instant in a process on UTC stores 24. -/
theorem postRegister_age_west_of_utc :
    localDate (-300) sampleNoonInstant = ⟨2025, 9, 15⟩ ∧
    (nodeRuntime (-300)).parseDate "2000-09-16" = some (utcMidnight 2000 9 16) ∧
    localDate (-300) (utcMidnight 2000 9 16) = ⟨2000, 9, 15⟩ ∧
    postRegister (nodeRuntime (-300)) (-300) sampleNoonInstant noRegisterFaults sampleUsers
        (sampleRegisterRequest "U7" "2000-09-16") =
      (sampleUsers ++ [["U7", "Malee", "Jaidee", "female", "2000-09-16", "25"]],
        ⟨200, true, none, false, false⟩) ∧
    postRegister (nodeRuntime 0) 0 sampleNoonInstant noRegisterFaults sampleUsers
        (sampleRegisterRequest "U7" "2000-09-16") =
      (sampleUsers ++ [["U7", "Malee", "Jaidee", "female", "2000-09-16", "24"]],
        ⟨200, true, none, false, false⟩) := by
  decide

/-! ## Theorems: GET /medication/records -/

/-- A slice that starts at a non-negative index and spans a non-negative count is a
drop followed by a take. -/
theorem jsSlice_eq_take_drop {α : Type} (l : List α) (start count : Int) (hs : 0 ≤ start)
    (hc : 0 ≤ count) :
    jsSlice l start (start + count) = (l.drop start.toNat).take count.toNat := by
  unfold jsSlice clampIndex
  have h1 : ¬ start < 0 := by omega
  have h2 : ¬ start + count < 0 := by omega
  simp only [h1, h2, if_false]
  by_cases hlen : l.length ≤ start.toNat
  · have hd : l.drop start.toNat = [] := List.drop_eq_nil_of_le hlen
    have hmin : min start.toNat l.length = l.length := by omega
    rw [hd, hmin]
    simp
  · have hmin : min start.toNat l.length = start.toNat := by omega
    rw [hmin]
    apply List.ext_getElem?
    intro i
    simp only [List.getElem?_take, List.getElem?_drop]
    by_cases hi : i < count.toNat
    · by_cases hi2 : i < min (start + count).toNat l.length - start.toNat
      · simp [hi, hi2]
      · have : l.length ≤ start.toNat + i := by omega
        simp [hi, hi2, List.getElem?_eq_none this]
    · have hi2 : ¬ i < min (start + count).toNat l.length - start.toNat := by omega
      simp [hi, hi2]

theorem medicationSorted_length (rt : Runtime) (rows : Table) (userId : Option String) :
    (medicationSorted rt rows userId).length = (medicationUserRows rows userId).length := by
  simp [medicationSorted, jsSort, List.length_insertionSort]

theorem ceilDiv_bounds (n : Nat) (L : Int) (hL : 1 ≤ L) :
    (ceilDiv n L - 1) * L < n ∧ (n : Int) ≤ ceilDiv n L * L := by
  unfold ceilDiv
  rw [Int.fdiv_eq_ediv _ (by omega)]
  have h1 := Int.ediv_add_emod (-(n : Int)) L
  have h2 := Int.emod_nonneg (-(n : Int)) (by omega : L ≠ 0)
  have h3 := Int.emod_lt_of_pos (-(n : Int)) (by omega : 0 < L)
  constructor <;> nlinarith

/-- C13: for a medication listing request with a userId and a successful fetch, whose
page is the integer `p` and whose limit is the integer `L ≥ 1` (both as `Number` and as
`parseInt` read it), with `n` the number of the user's records: the response succeeds,
`totalRecords` is `n`, `totalPages` is the ceiling of `n / L`, `currentPage` is `p`
clamped into `[1, totalPages]` (so it is `p` when `1 ≤ p ≤ totalPages`), and the records
are the formatted elements at the indices `[(currentPage - 1) * L, (currentPage - 1) * L
+ L)` of the sorted list; when `n ≥ 1` the current page lies in `[1, totalPages]` and is
not empty; when `n = 0`, `totalPages` is 0 and the page is empty. -/
theorem getMedicationRecords_pagination (rt : Runtime) (store : Store) (query : ListingQuery)
    (p L : Int)
    (huser : truthy query.userId = true)
    (hpage : (paramNumber rt query.page 1).toInt? = some p)
    (hlimit : (paramNumber rt query.limit 12).toInt? = some L)
    (hparsed : paramParseInt rt query.limit 12 = some L)
    (hL : 1 ≤ L) :
    ∃ pagination : MedicationPagination,
      getMedicationRecords rt none store query =
        some ⟨true, none,
          some ((((medicationSorted rt store.medicationLogs query.userId).drop
            ((pagination.currentPage - 1) * L).toNat).take L.toNat).map formatMedication),
          some pagination⟩ ∧
      pagination.totalRecords = (medicationUserRows store.medicationLogs query.userId).length ∧
      pagination.totalPages =
        ⌈(((medicationUserRows store.medicationLogs query.userId).length : Int) : ℚ) / (L : ℚ)⌉ ∧
      pagination.currentPage = max 1 (min p pagination.totalPages) ∧
      (1 ≤ p → p ≤ pagination.totalPages → pagination.currentPage = p) ∧
      (1 ≤ (medicationUserRows store.medicationLogs query.userId).length →
        1 ≤ pagination.currentPage ∧ pagination.currentPage ≤ pagination.totalPages ∧
        ((medicationSorted rt store.medicationLogs query.userId).drop
            ((pagination.currentPage - 1) * L).toNat).take L.toNat ≠ []) ∧
      ((medicationUserRows store.medicationLogs query.userId).length = 0 →
        pagination.totalPages = 0 ∧
        ((medicationSorted rt store.medicationLogs query.userId).drop
            ((pagination.currentPage - 1) * L).toNat).take L.toNat = []) := by
  have hlen := medicationSorted_length rt store.medicationLogs query.userId
  generalize hsorted : medicationSorted rt store.medicationLogs query.userId = sorted at hlen
  generalize (medicationUserRows store.medicationLogs query.userId).length = n at hlen
  have hb := ceilDiv_bounds n L hL
  have hL0 : L ≠ 0 := by omega
  have hcp1 : 1 ≤ max 1 (min p (ceilDiv n L)) := le_max_left _ _
  have hstart : 0 ≤ (max 1 (min p (ceilDiv n L)) - 1) * L :=
    mul_nonneg (by omega) (by omega)
  refine ⟨(medicationPaginate sorted p L (some L)).2, ?_, ?_, ?_, ?_, ?_, ?_, ?_⟩
  · simp only [getMedicationRecords, huser, fetchRows, hpage, hlimit, hparsed, hsorted,
      Bool.not_true, Bool.false_eq_true, if_false, hL0]
    simp only [medicationPaginate, hlen, Option.map_some', Option.getD_some]
    rw [jsSlice_eq_take_drop _ _ _ hstart (by omega)]
  · simp [medicationPaginate, hlen]
  · simp only [medicationPaginate, hlen]
    exact ceilDiv_eq_ceil _ _ (by omega)
  · simp [medicationPaginate, hlen]
  · intro h1 h2
    simp only [medicationPaginate, hlen] at h2 ⊢
    omega
  · intro hn
    simp only [medicationPaginate, hlen]
    have htp : 1 ≤ ceilDiv n L := by
      by_contra hneg
      have : ceilDiv (n : Int) L * L ≤ 0 := by nlinarith
      omega
    have hcp : max 1 (min p (ceilDiv n L)) ≤ ceilDiv n L := by omega
    refine ⟨hcp1, hcp, ?_⟩
    have hlt : (max 1 (min p (ceilDiv n L)) - 1) * L < n := by nlinarith
    intro hempty
    have hlen0 := congrArg List.length hempty
    simp only [List.length_take, List.length_drop, List.length_nil, hlen] at hlen0
    omega
  · intro hn
    subst hn
    have htp : ceilDiv ((0 : Nat) : Int) L = 0 := by simp [ceilDiv]
    simp only [medicationPaginate, hlen, htp]
    refine ⟨trivial, ?_⟩
    have : sorted = [] := List.length_eq_zero.1 hlen
    simp [this]

/-- C13 at a concrete input: the second page of size 2 of the three logs of user U1. -/
theorem getMedicationRecords_pagination_witness :
    ∃ pagination : MedicationPagination,
      (getMedicationRecords (nodeRuntime 0) none sampleMedicationStore
        ⟨some "U1", some "2", some "2"⟩).bind (fun r => r.pagination) = some pagination ∧
      pagination.totalRecords = 3 ∧
      pagination.currentPage = max 1 (min 2 pagination.totalPages) :=
  let ⟨pagination, hresp, htotal, _, hcurrent, _⟩ :=
    getMedicationRecords_pagination (nodeRuntime 0) sampleMedicationStore
      ⟨some "U1", some "2", some "2"⟩ 2 2 (by decide) (by decide) (by decide) (by decide)
      (by decide)
  ⟨pagination, by rw [hresp]; rfl, by rw [htotal]; decide, hcurrent⟩

/-! ## Theorems: validation of POST /sugar -/

/-- C14 (counterexample): a submission without `userId` that names the registered user
U1 through the alias `user_id` does not fail validation: it is accepted and its row is
appended. -/
theorem postSugar_user_id_alias_accepted :
    aliasSugarRequest.userId = none ∧
    postSugar (nodeRuntime 0) noSugarFaults sampleNow sampleStore aliasSugarRequest =
      ({ sampleStore with
          sugarRecords := sampleSugarRecords ++
            [["U1", "120", "หลังอาหาร", "เย็น", "2025-09-15"]] },
        ⟨200, true, some "บันทึกค่าน้ำตaลสำเร็จ", false, false⟩) := by
  decide

theorem truthy_jsOr (a b : Option String) :
    truthy (jsOr a b) = false ↔ truthy a = false ∧ truthy b = false := by
  unfold jsOr
  cases h : truthy a <;> simp [h]

theorem typeRaw_eq_firstPresentText (a b c : Option String) :
    jsNullish (jsNullish a b) c = firstPresentText a b c := by
  cases a <;> cases b <;> cases c <;> rfl

theorem nullish_eq (a b : JsValue) : a.nullish b = if a.isMissing then b else a := by
  cases a <;> rfl

theorem resolvedSugar_eq (rt : Runtime) (body : SugarRequest) :
    body.resolvedSugar rt =
      toNumber rt ((body.sugar.nullish body.value).nullish body.glucose) := by
  unfold SugarRequest.resolvedSugar
  cases (body.sugar.nullish body.value).nullish body.glucose <;> rfl

theorem resolvedSugar_of_present (rt : Runtime) (body : SugarRequest) (v : JsValue)
    (h : firstPresent body.sugar body.value body.glucose = some v) :
    body.resolvedSugar rt = toNumber rt v := by
  rw [resolvedSugar_eq, nullish_eq, nullish_eq]
  unfold firstPresent at h
  cases hs : body.sugar.isMissing <;> cases hv : body.value.isMissing <;>
    cases hg : body.glucose.isMissing <;> simp_all

theorem resolvedSugar_of_missing (rt : Runtime) (body : SugarRequest)
    (h : firstPresent body.sugar body.value body.glucose = none)
    (hg : body.glucose ≠ .null) :
    body.resolvedSugar rt = .nan := by
  rw [resolvedSugar_eq, nullish_eq, nullish_eq]
  unfold firstPresent at h
  cases hs : body.sugar.isMissing <;> cases hv : body.value.isMissing <;>
    cases hgl : body.glucose.isMissing <;> simp_all
  cases hgv : body.glucose with
  | undefined => rfl
  | null => exact absurd hgv hg
  | bool b => rw [hgv] at hgl; cases hgl
  | number n => rw [hgv] at hgl; cases hgl
  | string s => rw [hgv] at hgl; cases hgl

theorem invalid_iff (rt : Runtime) (body : SugarRequest)
    (hg : firstPresent body.sugar body.value body.glucose = none → body.glucose ≠ .null) :
    body.invalid rt = true ↔
      ((truthy body.userId = false ∧ truthy body.user_id = false) ∨
        firstPresent body.sugar body.value body.glucose = none ∨
        (∃ v, firstPresent body.sugar body.value body.glucose = some v ∧
          isValidReading rt v = false) ∨
        truthy (firstPresentText body.type body.mealTiming body.meal_timing) = false ∨
        truthy (firstPresentText body.period body.timeOfDay body.time_of_day) = false) := by
  have hu := truthy_jsOr body.userId body.user_id
  simp only [SugarRequest.invalid, SugarRequest.resolvedUserId, SugarRequest.typeRaw,
    SugarRequest.periodRaw, typeRaw_eq_firstPresentText, Bool.or_eq_true,
    Bool.not_eq_true'] 
  rw [hu]
  cases hfp : firstPresent body.sugar body.value body.glucose with
  | none =>
    have hnan := resolvedSugar_of_missing rt body hfp (hg hfp)
    simp [hnan, JsNumber.isFinite]
  | some v =>
    have hv := resolvedSugar_of_present rt body v hfp
    simp only [hv, isValidReading, Bool.and_eq_false_iff, Bool.not_eq_false', Option.some.injEq,
      exists_eq_left', false_or, reduceCtorEq]
    tauto

theorem postSugar_status_400_iff (rt : Runtime) (faults : SugarFaults) (now : ThaiDateTime)
    (store : Store) (body : SugarRequest) :
    (postSugar rt faults now store body).2.status = 400 ↔ body.invalid rt = true := by
  unfold postSugar postSugarTry
  cases hinv : body.invalid rt
  · cases hu : faults.usersFetch
    · cases hreg : isRegistered store.users body.resolvedUserId
      · simp [fetchRows, hreg]
      · cases hr : faults.recordsFetch
        · cases hd : sugarIsDuplicate store.sugarRecords body.resolvedUserId
            (translateType body.typeRaw) (translatePeriod body.periodRaw) now.date
          · cases ha : faults.append <;> simp [fetchRows, appendRow, hreg, hd]
          · simp [fetchRows, hreg, hd, dateStr]
        · simp [fetchRows, hreg]
    · simp [fetchRows]
  · simp

theorem postSugar_of_invalid (rt : Runtime) (faults : SugarFaults) (now : ThaiDateTime)
    (store : Store) (body : SugarRequest) (h : body.invalid rt = true) :
    postSugar rt faults now store body = (store, validationFailure) := by
  simp [postSugar, postSugarTry, h, validationFailure]

/-- C14 (amended): for a submission other than one whose numeric field is missing under
all three names with `glucose` given as `null`, POST /sugar answers with status 400
exactly when `userId` and its alias `user_id` are both missing or empty, or the numeric
field (the first present of sugar, value, glucose) is missing or does not convert to a
finite number that is not negative, or the meal-timing field (the first present of type,
mealTiming, meal_timing) is missing or empty, or the time-of-day field (the first present
of period, timeOfDay, time_of_day) is missing or empty; and a submission answered with
status 400 gets the validation failure and leaves the store unchanged whatever the
sheets, the clock and the outcomes of the row-store calls are. -/
theorem postSugar_validation (rt : Runtime) (faults : SugarFaults) (now : ThaiDateTime)
    (store : Store) (body : SugarRequest)
    (hg : firstPresent body.sugar body.value body.glucose = none → body.glucose ≠ .null) :
    ((postSugar rt faults now store body).2.status = 400 ↔
      ((truthy body.userId = false ∧ truthy body.user_id = false) ∨
        firstPresent body.sugar body.value body.glucose = none ∨
        (∃ v, firstPresent body.sugar body.value body.glucose = some v ∧
          isValidReading rt v = false) ∨
        truthy (firstPresentText body.type body.mealTiming body.meal_timing) = false ∨
        truthy (firstPresentText body.period body.timeOfDay body.time_of_day) = false)) ∧
    ((postSugar rt faults now store body).2.status = 400 →
      ∀ (faults' : SugarFaults) (now' : ThaiDateTime) (store' : Store),
        postSugar rt faults' now' store' body = (store', validationFailure)) := by
  rw [postSugar_status_400_iff]
  exact ⟨invalid_iff rt body hg, fun h faults' now' store' =>
    postSugar_of_invalid rt faults' now' store' body h⟩

/-- C14 at a concrete input: a submission with an empty time of day fails validation and
leaves the store unchanged. -/
theorem postSugar_validation_witness :
    (postSugar (nodeRuntime 0) noSugarFaults sampleNow sampleStore
      (sampleSugarRequest "U1" "after" "")).2.status = 400 ∧
    postSugar (nodeRuntime 0) noSugarFaults sampleNow sampleStore
      (sampleSugarRequest "U1" "after" "") = (sampleStore, validationFailure) :=
  have h := postSugar_validation (nodeRuntime 0) noSugarFaults sampleNow sampleStore
    (sampleSugarRequest "U1" "after" "") (by decide)
  ⟨h.1.2 (Or.inr (Or.inr (Or.inr (Or.inr (by decide))))),
    h.2 (h.1.2 (Or.inr (Or.inr (Or.inr (Or.inr (by decide)))))) _ _ _⟩

/-! ## Theorems: the header row -/

/-- C15 (code defect): replacing the header row changes the result of each of the four
operations when the request carries the text of the header cells.  With the header
starting with the text userId, GET /check-user reports the userId `userId` as registered
and POST /register refuses it as a duplicate; with the header `userId, date, time, note`
POST /appointment refuses the appointment `(userId, date, time)` as a duplicate; and the
weekly chart of the userId `userId` counts the header of SugarRecords as a reading.  After
the header is replaced by another row the userId is not registered, the registration and
the appointment are appended, and the chart is empty. -/
theorem header_row_influences_checks :
    getCheckUser none sampleUsers (some "userId") = .ok true ∧
    getCheckUser none (replaceHeader ["id"] sampleUsers) (some "userId") = .ok false ∧
    (postRegister (nodeRuntime 0) 0 sampleTriggerInstant noRegisterFaults sampleUsers
      (sampleRegisterRequest "userId" "2000-09-16")).2.success = false ∧
    (postRegister (nodeRuntime 0) 0 sampleTriggerInstant noRegisterFaults
      (replaceHeader ["id"] sampleUsers)
      (sampleRegisterRequest "userId" "2000-09-16")).2.success = true ∧
    (postAppointment noAppointmentFaults sampleAppointments
      (sampleAppointmentRequest "userId" "date" "time")).2.success = false ∧
    (postAppointment noAppointmentFaults (replaceHeader ["id"] sampleAppointments)
      (sampleAppointmentRequest "userId" "date" "time")).2.success = true ∧
    getSugarRange (nodeRuntime 0) none sampleChartStore "weekly" (some "userId") =
      ⟨true, none, ["date-เช้า", "date-เย็น"], [.null, .null], [.null, .null], some 1⟩ ∧
    getSugarRange (nodeRuntime 0) none
      { sampleChartStore with sugarRecords := replaceHeader ["id"] sampleChartRecords }
      "weekly" (some "userId") = ⟨true, none, [], [], [], some 0⟩ := by
  refine ⟨rfl, rfl, ?_⟩
  decide

/-- A header row whose first cell is not the userId has no influence on the registration
existence check, on the duplicate test of POST /register, or on the rows the weekly chart
is built from. -/
theorem header_without_userId_has_no_influence (header header' : Row) (rest : Table)
    (userId : Option String)
    (h : jsString (cell header 0) ≠ jsString userId)
    (h' : jsString (cell header' 0) ≠ jsString userId) :
    getCheckUser none (header :: rest) userId = getCheckUser none (header' :: rest) userId ∧
    registerIsDuplicate (header :: rest) userId = registerIsDuplicate (header' :: rest) userId ∧
    chartUserRows (header :: rest) userId = chartUserRows (header' :: rest) userId := by
  have hc : (cell header 0 == userId) = false := by
    rw [beq_eq_false_iff_ne]; intro e; exact h (by rw [e])
  have hc' : (cell header' 0 == userId) = false := by
    rw [beq_eq_false_iff_ne]; intro e; exact h' (by rw [e])
  refine ⟨?_, ?_, ?_⟩
  · simp [getCheckUser, fetchRows, hc, hc']
  · simp [registerIsDuplicate, hc, hc']
  · simp [chartUserRows, List.filter_cons, h, h']

/-! ## Theorems: a fetch that fails -/

/-- C16 (code defect): when the fetch throws, GET /check-user builds no response: the
exception leaves the handler, which has no `try`.  On the same failure the other
handlers that fetch answer with success false and a message: POST /register,
POST /sugar (both of its fetches), GET /sugar/records, GET /sugar/weekly,
GET /medication/records, POST /appointment and GET /appointment/records; the manual
reminder trigger, whose fetch failure is caught inside `getAppointmentsToRemind`, sends
nothing and answers with success true. -/
theorem getCheckUser_fetch_failure_propagates :
    getCheckUser (some "quota exceeded") sampleUsers (some "U1") =
      .error (.storeError "quota exceeded") ∧
    (postRegister (nodeRuntime 0) 0 sampleTriggerInstant ⟨some "quota exceeded", none⟩
      sampleUsers (sampleRegisterRequest "U7" "2000-09-16")).2 =
        ⟨200, false, some "quota exceeded", false, false⟩ ∧
    (postSugar (nodeRuntime 0) ⟨some "quota exceeded", none, none⟩ sampleNow sampleStore
      (sampleSugarRequest "U1" "after" "evening")).2.success = false ∧
    (postSugar (nodeRuntime 0) ⟨none, some "quota exceeded", none⟩ sampleNow sampleStore
      (sampleSugarRequest "U1" "after" "evening")).2.success = false ∧
    getSugarRecords (nodeRuntime 0) (some "quota exceeded") sampleStore
      ⟨some "U1", none, none⟩ = ⟨500, false, some "quota exceeded", [], none⟩ ∧
    getSugarRange (nodeRuntime 0) (some "quota exceeded") sampleStore "weekly" (some "U1") =
      ⟨false, some "quota exceeded", [], [], [], none⟩ ∧
    getMedicationRecords (nodeRuntime 0) (some "quota exceeded") sampleStore
      ⟨some "U1", none, none⟩ =
        some ⟨false, some "ไม่สามารถดึงข้อมูลได้: quota exceeded", none, none⟩ ∧
    (postAppointment ⟨some "quota exceeded", none⟩ sampleAppointments
      (sampleAppointmentRequest "U2" "2025-09-20" "09:00")).2 =
        ⟨200, false, some "quota exceeded", false, false⟩ ∧
    getAppointmentRecords (nodeRuntime 0) (some "quota exceeded") sampleStore
      ⟨some "U1", none, none⟩ = ⟨500, false, some "quota exceeded", [], none⟩ ∧
    postTestReminder (fun _ _ => .ok ()) (some "quota exceeded") "2025-09-16"
      sampleReminderSheet =
        (⟨200, true, some "Daily reminders sent successfully", false, false⟩, []) := by
  refine ⟨rfl, ?_⟩
  decide

/-- Whatever the sheet and the userId, a fetch that throws makes GET /check-user throw. -/
theorem getCheckUser_of_fetch_failure (msg : String) (users : Table)
    (userId : Option String) :
    getCheckUser (some msg) users userId = .error (.storeError msg) := rfl

/-- Whatever the request and the sheets, a fetch that throws makes each handler with a
`try` answer with success false and a message. -/
theorem handlers_catch_fetch_failure (rt : Runtime) (msg : String) (store : Store) :
    (∀ (off now : Int) (append : Option String) (body : RegisterRequest),
      (postRegister rt off now ⟨some msg, append⟩ store.users body).2.success = false ∧
      (postRegister rt off now ⟨some msg, append⟩ store.users body).2.message ≠ none) ∧
    (∀ (faults : SugarFaults) (now : ThaiDateTime) (body : SugarRequest),
      faults.usersFetch = some msg ∨ faults.recordsFetch = some msg →
      (postSugar rt faults now store body).2.success = false ∧
      (postSugar rt faults now store body).2.message ≠ none ∧
      (postSugar rt faults now store body).1 = store) ∧
    (∀ query : ListingQuery,
      (getSugarRecords rt (some msg) store query).success = false ∧
      (getSugarRecords rt (some msg) store query).message ≠ none ∧
      (getSugarRecords rt (some msg) store query).records = []) ∧
    (∀ (rangeType : String) (userId : Option String),
      (getSugarRange rt (some msg) store rangeType userId).success = false ∧
      (getSugarRange rt (some msg) store rangeType userId).message ≠ none ∧
      (getSugarRange rt (some msg) store rangeType userId).labels = []) ∧
    (∀ query : ListingQuery, ∃ message : String,
      getMedicationRecords rt (some msg) store query = some ⟨false, some message, none, none⟩) ∧
    (∀ (append : Option String) (body : AppointmentRequest),
      (postAppointment ⟨some msg, append⟩ store.doctorAppointments body).2.success = false ∧
      (postAppointment ⟨some msg, append⟩ store.doctorAppointments body).2.message ≠ none) ∧
    (∀ query : ListingQuery,
      (getAppointmentRecords rt (some msg) store query).success = false ∧
      (getAppointmentRecords rt (some msg) store query).message ≠ none ∧
      (getAppointmentRecords rt (some msg) store query).appointments = []) := by
  refine ⟨?_, ?_, ?_, ?_, ?_, ?_, ?_⟩
  · intro off now append body
    unfold postRegister
    split <;> simp [fetchRows]
  · intro faults now body hf
    unfold postSugar postSugarTry
    cases hinv : body.invalid rt
    · cases hu : faults.usersFetch
      · cases hreg : isRegistered store.users body.resolvedUserId
        · simp [fetchRows, hreg]
        · have hr : faults.recordsFetch = some msg := by
            rcases hf with h | h
            · rw [hu] at h; cases h
            · exact h
          simp [fetchRows, hreg, hr]
      · simp [fetchRows]
    · simp
  · intro query
    unfold getSugarRecords
    split <;> simp [fetchRows]
  · intro rangeType userId
    unfold getSugarRange
    split <;> simp [fetchRows]
  · intro query
    unfold getMedicationRecords
    split
    · exact ⟨_, rfl⟩
    · exact ⟨_, rfl⟩
  · intro append body
    unfold postAppointment
    split <;> simp [fetchRows]
  · intro query
    unfold getAppointmentRecords
    split <;> simp [fetchRows]

/-! ## Theorems: the pages of the unclamped listings -/

/-- The first `k` chunks of `size` elements of a list make up its first `k * size`
elements. -/
theorem flatMap_chunks {α : Type} (l : List α) (size : Nat) (k : Nat) :
    (List.range k).flatMap (fun i => (l.drop (i * size)).take size) = l.take (k * size) := by
  induction k with
  | zero => simp
  | succ k ih =>
    rw [List.range_succ, List.flatMap_append, ih]
    simp only [List.flatMap_cons, List.flatMap_nil, List.append_nil]
    rw [Nat.succ_mul, List.take_add]

/-- The page `i + 1` of size `L ≥ 1` is the chunk `i` of the list. -/
theorem jsSlice_page {α : Type} (l : List α) (L : Int) (hL : 1 ≤ L) (i : Nat) :
    jsSlice l (((i : Int) + 1 - 1) * L) (((i : Int) + 1 - 1) * L + L) =
      (l.drop (i * L.toNat)).take L.toNat := by
  have hs : 0 ≤ ((i : Int) + 1 - 1) * L := mul_nonneg (by omega) (by omega)
  rw [jsSlice_eq_take_drop l _ L hs (by omega)]
  congr 2
  have h1 : ((i : Int) + 1 - 1) * L = ((i * L.toNat : Nat) : Int) := by
    push_cast
    rw [Int.toNat_of_nonneg (by omega)]
    ring
  rw [h1, Int.toNat_natCast]

/-- The pages of a list for the page numbers 1 to `totalPages`, concatenated, are the
list; a page past `totalPages` is empty. -/
theorem jsSlice_pages {α : Type} (l : List α) (L : Int) (hL : 1 ≤ L) :
    (List.range (ceilDiv l.length L).toNat).flatMap
      (fun i => jsSlice l (((i : Int) + 1 - 1) * L) (((i : Int) + 1 - 1) * L + L)) = l ∧
    ∀ p : Int, ceilDiv l.length L < p →
      jsSlice l ((p - 1) * L) ((p - 1) * L + L) = [] := by
  have hb := ceilDiv_bounds l.length L hL
  have htp : 0 ≤ ceilDiv (l.length : Int) L := by
    by_contra hneg
    have : ceilDiv (l.length : Int) L * L < 0 := by nlinarith
    omega
  constructor
  · simp only [jsSlice_page l L hL]
    rw [flatMap_chunks]
    apply List.take_of_length_le
    have h1 : ((ceilDiv (l.length : Int) L).toNat : Int) = ceilDiv (l.length : Int) L :=
      Int.toNat_of_nonneg htp
    have h2 : ((L.toNat : Nat) : Int) = L := Int.toNat_of_nonneg (by omega)
    have h3 : (l.length : Int) ≤ (((ceilDiv (l.length : Int) L).toNat * L.toNat : Nat) : Int) := by
      push_cast
      rw [h1, h2]
      exact hb.2
    exact_mod_cast h3
  · intro p hp
    have hs : 0 ≤ (p - 1) * L := mul_nonneg (by omega) (by omega)
    rw [jsSlice_eq_take_drop l _ L hs (by omega)]
    have hge : (l.length : Int) ≤ (p - 1) * L := by nlinarith
    have : l.length ≤ ((p - 1) * L).toNat := by omega
    rw [List.drop_eq_nil_of_le this]
    exact List.take_nil

/-- C17: for the paginations of GET /sugar/records and GET /appointment/records, every
list of records and every page size `L ≥ 1`: the pages for the page numbers 1 to
`totalPages`, concatenated in order, are the list itself, so every record is on exactly
one page, in order; and every page number greater than `totalPages` gets an empty page
with `hasNext` false. -/
theorem unclamped_pages_cover (records : List SugarRecord)
    (appointments : List AppointmentRecord) (L : Int) (hL : 1 ≤ L) :
    (List.range (sugarPaginate records 1 L).2.totalPages.toNat).flatMap
      (fun i => (sugarPaginate records ((i : Int) + 1) L).1) = records ∧
    (∀ p : Int, (sugarPaginate records p L).2.totalPages < p →
      (sugarPaginate records p L).1 = [] ∧ (sugarPaginate records p L).2.hasNext = false) ∧
    (List.range (appointmentPaginate appointments 1 L).2.totalPages.toNat).flatMap
      (fun i => (appointmentPaginate appointments ((i : Int) + 1) L).1) = appointments ∧
    (∀ p : Int, (appointmentPaginate appointments p L).2.totalPages < p →
      (appointmentPaginate appointments p L).1 = [] ∧
      (appointmentPaginate appointments p L).2.hasNext = false) := by
  obtain ⟨hs1, hs2⟩ := jsSlice_pages records L hL
  obtain ⟨ha1, ha2⟩ := jsSlice_pages appointments L hL
  refine ⟨hs1, ?_, ha1, ?_⟩
  · intro p hp
    simp only [sugarPaginate] at hp ⊢
    exact ⟨hs2 p hp, by simpa using le_of_lt hp⟩
  · intro p hp
    simp only [appointmentPaginate] at hp ⊢
    exact ⟨ha2 p hp, by simpa using le_of_lt hp⟩

/-- C17 at a concrete input: the three records of user U1 in pages of two. -/
theorem unclamped_pages_cover_witness :
    (List.range (sugarPaginate ((sugarUserRows sampleChartRecords (some "U1")).map
        toSugarRecord) 1 2).2.totalPages.toNat).flatMap
      (fun i => (sugarPaginate ((sugarUserRows sampleChartRecords (some "U1")).map
        toSugarRecord) ((i : Int) + 1) 2).1) =
      (sugarUserRows sampleChartRecords (some "U1")).map toSugarRecord ∧
    (sugarPaginate ((sugarUserRows sampleChartRecords (some "U1")).map toSugarRecord)
      1 2).2.totalPages = 2 :=
  ⟨(unclamped_pages_cover ((sugarUserRows sampleChartRecords (some "U1")).map toSugarRecord)
      [] 2 (by decide)).1, by decide⟩

end SugarTracker
